import Mathlib

/-!
Verification of the order-submission pipeline of the CVL Designs storefront.

The development shallowly embeds the server-side pipeline:
string utilities and JS-style helpers, the order-number allocator
(`src/lib/orderNumber.ts`), the in-memory rate limiter
(`src/lib/rateLimit.ts`), the zod-based input validator and the price
verifier (`src/lib/errorLogger.ts`), and the submission route with its
fulfillment pipeline (`src/app/api/orders/submit/route.ts`).

JavaScript numbers are embedded as exact rationals (`ℚ`); strings are
embedded as Lean `String` with helper operations defined on the
underlying character lists.  Fallible external calls (Google Sheets,
PDF generation, e-mail transport) are embedded as explicit outcome
parameters: `none`/`false` meaning the call threw, `some`/`true`
meaning it returned.
-/

namespace CVL

/-! ## JS string helpers -/

/-- Embedding of JavaScript `String.prototype.split(sep)` for a
single-character separator, on character lists.  `split` of the empty
string is `[[]]`, matching JS `"".split('-') = ['']`. -/
def splitChar (sep : Char) : List Char → List (List Char)
  | [] => [[]]
  | c :: cs =>
    if c = sep then [] :: splitChar sep cs
    else
      match splitChar sep cs with
      | [] => [[c]]
      | h :: t => (c :: h) :: t

/-- Embedding of JavaScript `String.prototype.toUpperCase` (ASCII). -/
def jsToUpper (s : String) : String := String.mk (s.data.map Char.toUpper)

/-- Embedding of JavaScript `String.prototype.toLowerCase` (ASCII). -/
def jsToLower (s : String) : String := String.mk (s.data.map Char.toLower)

/-- Whitespace as recognised by JavaScript `String.prototype.trim`. -/
def jsIsWhitespace (c : Char) : Bool := c.isWhitespace

/-- Embedding of JavaScript `String.prototype.trim`: drop leading and
trailing whitespace. -/
def jsTrim (s : String) : String :=
  String.mk (((s.data.dropWhile jsIsWhitespace).reverse.dropWhile jsIsWhitespace).reverse)

/-- Decimal digit character for a value `< 10` (as produced by JS
number-to-string conversion). -/
def decDigit (n : Nat) : Char := Char.ofNat (48 + n % 10)

/-- Fuel-driven core of decimal printing (structural recursion so that
concrete values reduce in the kernel). -/
def decDigitsCore : Nat → Nat → List Char → List Char
  | 0, _, acc => acc
  | fuel + 1, n, acc =>
    if n < 10 then decDigit n :: acc
    else decDigitsCore fuel (n / 10) (decDigit (n % 10) :: acc)

/-- Embedding of JavaScript `Number.prototype.toString()` for natural
numbers: the usual decimal digit string. -/
def decDigits (n : Nat) : List Char := decDigitsCore (n + 1) n []

/-- Embedding of JavaScript `String.prototype.padStart(k, c)`. -/
def padStart (l : List Char) (k : Nat) (c : Char) : List Char :=
  List.replicate (k - l.length) c ++ l

/-! ## Order number allocator (`src/lib/orderNumber.ts`) -/

namespace OrderNumber

/-- Embedding of `getEnvironment` in `orderNumber.ts`: derive the
environment tag from `process.env.VERCEL_ENV` / `process.env.VERCEL`. -/
def getEnvironment (vercelEnv : Option String) (vercelSet : Bool) : String :=
  if vercelEnv = some "production" then "PROD"
  else if vercelEnv = some "preview" then "PREVIEW"
  else if vercelSet then "DEV"
  else "LOCAL"

/-- Parse decimal digits followed by `':'`, accumulating the value; the
`seen` flag records whether at least one digit was consumed.  This is
the `(\d+):` part of the `/!A(\d+):/` regular expression used to
extract the row number from an `updatedRange` string. -/
def parseRowDigits : List Char → Nat → Bool → Option Nat
  | [], _, _ => none
  | c :: cs, acc, seen =>
    if c.isDigit then parseRowDigits cs (10 * acc + (c.toNat - 48)) true
    else if c = ':' ∧ seen then some acc
    else none

/-- Embedding of `updatedRange.match(/!A(\d+):/)` followed by
`parseInt(rowMatch[1], 10)`: scan for the leftmost occurrence of `!A`
followed by one or more digits and a `':'`, returning the digits'
value. -/
def extractRowNumber : List Char → Option Nat
  | [] => none
  | c :: cs =>
    if c = '!' then
      match cs with
      | 'A' :: cs2 =>
        match parseRowDigits cs2 0 false with
        | some r => some r
        | none => extractRowNumber cs
      | _ => extractRowNumber cs
    else extractRowNumber cs

/-- Embedding of `getNextSequenceNumber` in `orderNumber.ts`.

External effects are explicit parameters:
* `now` — `Date.now()` in milliseconds;
* `ensureSheetOk` — whether the ensure-sheet phase (the initial
  `values.get`, with sheet creation on failure) completed without an
  uncaught exception;
* `appendResult` — `none` if the `values.append` call threw, otherwise
  `some updatedRange?` with the `updatedRange` string returned by the
  append (missing `updatedRange` is `some none`);
* `updateOk` — whether the best-effort `values.update` writing the
  sequence back into the assigned row succeeded (its failure is caught
  and ignored, so the returned value does not depend on it).

Every failure path falls into the outer `catch`, which returns the
timestamp-derived fallback `Date.now() % 1000000`. -/
def getNextSequenceNumber (environment : String) (now : Nat)
    (ensureSheetOk : Bool) (appendResult : Option (Option String))
    (updateOk : Bool) : Nat :=
  if environment = "LOCAL" then now % 1000000
  else if ensureSheetOk = false then now % 1000000
  else
    match appendResult with
    | none => now % 1000000
    | some none => now % 1000000
    | some (some updatedRange) =>
      match extractRowNumber updatedRange.data with
      | none => now % 1000000
      | some rowNumber =>
        let _ := updateOk
        rowNumber - 1

/-- The date string `date.toISOString().slice(0, 10)` for a date with
year `y`, month `m`, day `d` (ISO dates are zero-padded 4-2-2). -/
def isoDateData (y m d : Nat) : List Char :=
  padStart (decDigits y) 4 '0' ++ '-' ::
    (padStart (decDigits m) 2 '0' ++ '-' :: padStart (decDigits d) 2 '0')

/-- Embedding of `generateOrderNumber` in `orderNumber.ts`:
`CVL-[ENV]-[STORE]-[YYYYMMDD]-[SEQUENCE]`.  The date is given by its
components `y`/`m`/`d`; the global dash-removing `replace` on the ISO
date is the filter dropping `'-'`.  The sequence is obtained from
`getNextSequenceNumber` whose effect parameters are threaded through. -/
def generateOrderNumber (vercelEnv : Option String) (vercelSet : Bool)
    (y m d : Nat) (storeSlug : String) (now : Nat) (ensureSheetOk : Bool)
    (appendResult : Option (Option String)) (updateOk : Bool) : String :=
  let dateStr : List Char := (isoDateData y m d).filter (fun c => c ≠ '-')
  let storeUpper := jsToUpper (if storeSlug = "" then "DEFAULT" else storeSlug)
  let env := getEnvironment vercelEnv vercelSet
  let sequence := getNextSequenceNumber env now ensureSheetOk appendResult updateOk
  let sequenceStr : List Char := padStart (decDigits sequence) 6 '0'
  String.mk ("CVL-".data ++ env.data ++ '-' :: storeUpper.data ++ '-' ::
    dateStr ++ '-' :: sequenceStr)

/-- Embedding of `getShortOrderNumber` in `orderNumber.ts`:
`fullOrderNumber.split('-')` and then the last element, with `'000000'`
substituted when that element is falsy (the empty string). -/
def getShortOrderNumber (fullOrderNumber : String) : String :=
  match (splitChar '-' fullOrderNumber.data).getLast? with
  | some lastPart => if lastPart.isEmpty then "000000" else String.mk lastPart
  | none => "000000"

end OrderNumber

/-! ## Rate limiter (`src/lib/rateLimit.ts`) -/

namespace RateLimit

/-- One entry of the in-memory rate-limit store. -/
structure RateLimitEntry where
  count : Nat
  firstRequestTime : Int
  deriving DecidableEq

/-- The module-level mutable state of `rateLimit.ts`: the
`rateLimitStore` map and the `lastCleanup` timestamp.  The map is
embedded as a function from identifiers to optional entries. -/
structure RateLimitState where
  store : String → Option RateLimitEntry
  lastCleanup : Int

/-- Embedding of `RateLimitConfig`. -/
structure RateLimitConfig where
  maxRequests : Nat
  windowMs : Int
  deriving DecidableEq

/-- Embedding of `RateLimitResult`. -/
structure RateLimitResult where
  allowed : Bool
  remaining : Int
  resetIn : Int
  current : Nat
  deriving DecidableEq

/-- `CLEANUP_INTERVAL = 5 * 60 * 1000`. -/
def CLEANUP_INTERVAL : Int := 5 * 60 * 1000

/-- Embedding of `cleanupExpiredEntries`: a no-op unless
`CLEANUP_INTERVAL` has elapsed since `lastCleanup`; otherwise delete
every entry whose window has expired and record the cleanup time. -/
def cleanupExpiredEntries (windowMs : Int) (now : Int)
    (st : RateLimitState) : RateLimitState :=
  if now - st.lastCleanup < CLEANUP_INTERVAL then st
  else
    { lastCleanup := now
      store := fun ip =>
        match st.store ip with
        | some entry =>
          if now - entry.firstRequestTime > windowMs then none else some entry
        | none => none }

/-- Embedding of `checkRateLimit`: the fixed-window admission check.
`now` is `Date.now()`; the updated module state is returned alongside
the result. -/
def checkRateLimit (identifier : String) (config : RateLimitConfig)
    (now : Int) (st : RateLimitState) : RateLimitResult × RateLimitState :=
  let st1 := cleanupExpiredEntries config.windowMs now st
  match st1.store identifier with
  | none =>
    ({ allowed := true, remaining := (config.maxRequests : Int) - 1,
       resetIn := config.windowMs, current := 1 },
     { st1 with store := fun ip =>
         if ip = identifier then some ⟨1, now⟩ else st1.store ip })
  | some entry =>
    if now - entry.firstRequestTime > config.windowMs then
      ({ allowed := true, remaining := (config.maxRequests : Int) - 1,
         resetIn := config.windowMs, current := 1 },
       { st1 with store := fun ip =>
           if ip = identifier then some ⟨1, now⟩ else st1.store ip })
    else
      let newCount := entry.count + 1
      let resetIn := config.windowMs - (now - entry.firstRequestTime)
      let st2 : RateLimitState :=
        { st1 with store := fun ip =>
            if ip = identifier then some ⟨newCount, entry.firstRequestTime⟩
            else st1.store ip }
      if newCount > config.maxRequests then
        ({ allowed := false, remaining := 0, resetIn := resetIn,
           current := newCount }, st2)
      else
        ({ allowed := true, remaining := (config.maxRequests : Int) - newCount,
           resetIn := resetIn, current := newCount }, st2)

/-- `ORDER_RATE_LIMIT`: 3 orders per IP per minute. -/
def ORDER_RATE_LIMIT : RateLimitConfig := { maxRequests := 3, windowMs := 60 * 1000 }

/-- JavaScript `Math.ceil(a / 1000)` on integers: ceiling division. -/
def jsCeilDiv1000 (a : Int) : Int := (a + 999) / 1000

/-- Embedding of `getRateLimitHeaders`: the three standard rate-limit
response headers. -/
def getRateLimitHeaders (result : RateLimitResult) (config : RateLimitConfig) :
    List (String × String) :=
  [("X-RateLimit-Limit", Nat.repr config.maxRequests),
   ("X-RateLimit-Remaining", Int.repr result.remaining),
   ("X-RateLimit-Reset", Int.repr (jsCeilDiv1000 result.resetIn))]

end RateLimit

/-! ## Input validation (`src/lib/errorLogger.ts`, validation half) -/

namespace Validation

/-- Fuel-driven core of HTML-tag removal (structural recursion in the
fuel so that concrete values reduce in the kernel; the fuel is the
input length, which suffices since each step consumes at least one
character). -/
def removeHtmlTagsCore : Nat → List Char → List Char
  | 0, l => l
  | _ + 1, [] => []
  | fuel + 1, c :: cs =>
    if c = '<' then
      match cs.dropWhile (fun x => x ≠ '>') with
      | [] => c :: removeHtmlTagsCore fuel cs
      | _ :: rest => removeHtmlTagsCore fuel rest
    else c :: removeHtmlTagsCore fuel cs

/-- Remove HTML tags, embedding the global regex replace of
`<[^>]*>` with the empty string: from each `'<'` that is followed by a
later `'>'`, drop everything through the first such `'>'`; a `'<'`
with no following `'>'` is kept. -/
def removeHtmlTags (l : List Char) : List Char := removeHtmlTagsCore l.length l

/-- Embedding of `sanitizeString`: remove HTML tags, remove any
remaining angle brackets, and trim whitespace. -/
def sanitizeString (value : String) : String :=
  jsTrim (String.mk ((removeHtmlTags value.data).filter
    (fun c => c ≠ '<' && c ≠ '>')))

/-- The string contains no angle bracket (no HTML markup can survive
in it). -/
def noAngle (s : String) : Prop := '<' ∉ s.data ∧ '>' ∉ s.data

/-- A single validation issue: the dotted field path (as produced by
`err.path.join('.')`) and the human-readable message. -/
structure ZodIssue where
  path : String
  message : String
  deriving DecidableEq

/-- Character class of the phone regex `[\d\s()+-]`. -/
def phoneChar (c : Char) : Bool :=
  c.isDigit || c.isWhitespace || c = '(' || c = ')' || c = '+' || c = '-'

/-- Embedding of the phone-number regex test for
`^[\d\s()+-]{10,20}$`. -/
def phoneRegexTest (s : String) : Bool :=
  s.data.all phoneChar && decide (10 ≤ s.data.length) && decide (s.data.length ≤ 20)

/-- Models the e-mail format test of the third-party `z.string().email()`
check (the zod library's regular expression is external to this
repository): a single `'@'` separating a non-empty local part from a
domain that contains a `'.'` and neither starts nor ends with one. -/
def emailFormatTest (s : String) : Bool :=
  match splitChar '@' s.data with
  | [localPart, domain] =>
    !localPart.isEmpty && !domain.isEmpty && domain.contains '.' &&
      decide (domain.head? ≠ some '.') && decide (domain.getLast? ≠ some '.')
  | _ => false

/-- Raw (untrusted) contact info, fields possibly missing. -/
structure RawContactInfo where
  email : Option String
  parentFirstName : Option String
  parentLastName : Option String
  phoneNumber : Option String

/-- Raw selected design option. -/
structure RawDesignOption where
  optionNumber : Option ℚ
  title : Option String
  price : Option ℚ

/-- Raw selected customization option. -/
structure RawCustomizationOption where
  optionNumber : Option ℚ
  title : Option String
  price : Option ℚ
  customName : Option String
  customNumber : Option String

/-- Raw order item. -/
structure RawOrderItem where
  productId : Option String
  productName : Option String
  size : Option String
  sizeUpcharge : Option ℚ
  itemPrice : Option ℚ
  quantity : Option ℚ
  designOptions : Option (List RawDesignOption)
  designOptionsTotal : Option ℚ
  customizationOptions : Option (List RawCustomizationOption)
  customizationOptionsTotal : Option ℚ
  totalPrice : Option ℚ

/-- Raw order submission payload. -/
structure RawOrderSubmission where
  contactInfo : Option RawContactInfo
  items : Option (List RawOrderItem)
  totalAmount : Option ℚ
  storeSlug : Option String

/-- Validated contact info (after transforms). -/
structure ValidatedContactInfo where
  email : String
  parentFirstName : String
  parentLastName : String
  phoneNumber : String
  deriving DecidableEq

/-- Validated design option. -/
structure ValidatedDesignOption where
  optionNumber : ℚ
  title : String
  price : ℚ
  deriving DecidableEq

/-- Validated customization option. -/
structure ValidatedCustomizationOption where
  optionNumber : ℚ
  title : String
  price : ℚ
  customName : Option String
  customNumber : Option String
  deriving DecidableEq

/-- Validated order item. -/
structure ValidatedOrderItem where
  productId : String
  productName : String
  size : String
  sizeUpcharge : ℚ
  itemPrice : ℚ
  quantity : ℚ
  designOptions : List ValidatedDesignOption
  designOptionsTotal : ℚ
  customizationOptions : List ValidatedCustomizationOption
  customizationOptionsTotal : ℚ
  totalPrice : ℚ
  deriving DecidableEq

/-- Validated order submission. -/
structure ValidatedOrderSubmission where
  contactInfo : ValidatedContactInfo
  items : List ValidatedOrderItem
  totalAmount : ℚ
  storeSlug : Option String
  deriving DecidableEq

/-- Issues of a required string field: `Required` when missing,
otherwise every failed check in the chain. -/
def requiredStringIssues (path : String) (v : Option String)
    (checks : String → List String) : List ZodIssue :=
  match v with
  | none => [⟨path, "Required"⟩]
  | some s => (checks s).map (fun m => ⟨path, m⟩)

/-- Issues of a required number field. -/
def requiredNumberIssues (path : String) (v : Option ℚ)
    (checks : ℚ → List String) : List ZodIssue :=
  match v with
  | none => [⟨path, "Required"⟩]
  | some q => (checks q).map (fun m => ⟨path, m⟩)

/-- Checks of `contactInfoSchema.email`:
`min(1) ∘ max(254) ∘ email`. -/
def emailChecks (s : String) : List String :=
  (if s.length < 1 then ["Email is required"] else []) ++
    (if s.length > 254 then ["Email is too long"] else []) ++
      (if emailFormatTest s then [] else ["Invalid email format"])

/-- Checks of a required name field with the given cap and messages. -/
def nameChecks (minMsg maxMsg : String) (cap : Nat) (s : String) : List String :=
  (if s.length < 1 then [minMsg] else []) ++
    (if s.length > cap then [maxMsg] else [])

/-- Checks of `contactInfoSchema.phoneNumber`:
`min(10) ∘ max(20) ∘ regex(phoneRegex)`. -/
def phoneChecks (s : String) : List String :=
  (if s.length < 10 then ["Phone number is too short"] else []) ++
    (if s.length > 20 then ["Phone number is too long"] else []) ++
      (if phoneRegexTest s then [] else ["Invalid phone number format"])

/-- Issues of `contactInfoSchema` rooted at `basePath`. -/
def contactInfoIssues (basePath : String) (c : RawContactInfo) : List ZodIssue :=
  requiredStringIssues (basePath ++ ".email") c.email emailChecks ++
    requiredStringIssues (basePath ++ ".parentFirstName") c.parentFirstName
      (nameChecks "First name is required" "First name is too long" 50) ++
      requiredStringIssues (basePath ++ ".parentLastName") c.parentLastName
        (nameChecks "Last name is required" "Last name is too long" 50) ++
        requiredStringIssues (basePath ++ ".phoneNumber") c.phoneNumber phoneChecks

/-- Checks of `z.number().int().min(1).max(99)` (option numbers). -/
def optionNumberChecks (q : ℚ) : List String :=
  (if q.den ≠ 1 then ["Expected integer, received float"] else []) ++
    (if q < 1 then ["Number must be greater than or equal to 1"] else []) ++
      (if q > 99 then ["Number must be less than or equal to 99"] else [])

/-- Checks of `z.number().min(lo).max(hi)` with default messages. -/
def numberRangeChecks (loMsg hiMsg : String) (lo hi : ℚ) (q : ℚ) : List String :=
  (if q < lo then [loMsg] else []) ++ (if q > hi then [hiMsg] else [])

/-- Checks of `z.string().max(cap)` with the default message. -/
def stringMaxChecks (cap : Nat) (msg : String) (s : String) : List String :=
  if s.length > cap then [msg] else []

/-- Issues of `selectedDesignOptionSchema` rooted at `basePath`. -/
def designOptionIssues (basePath : String) (o : RawDesignOption) : List ZodIssue :=
  requiredNumberIssues (basePath ++ ".optionNumber") o.optionNumber optionNumberChecks ++
    requiredStringIssues (basePath ++ ".title") o.title
      (stringMaxChecks 100 "String must contain at most 100 character(s)") ++
      requiredNumberIssues (basePath ++ ".price") o.price
        (numberRangeChecks "Number must be greater than or equal to 0"
          "Number must be less than or equal to 1000" 0 1000)

/-- Issues of `selectedCustomizationOptionSchema` rooted at `basePath`.
`customName` and `customNumber` are optional: a missing value is
accepted without issue. -/
def customizationOptionIssues (basePath : String) (o : RawCustomizationOption) :
    List ZodIssue :=
  requiredNumberIssues (basePath ++ ".optionNumber") o.optionNumber optionNumberChecks ++
    requiredStringIssues (basePath ++ ".title") o.title
      (stringMaxChecks 100 "String must contain at most 100 character(s)") ++
      requiredNumberIssues (basePath ++ ".price") o.price
        (numberRangeChecks "Number must be greater than or equal to 0"
          "Number must be less than or equal to 1000" 0 1000) ++
        (match o.customName with
         | none => []
         | some s =>
           (stringMaxChecks 30 "Custom name is too long" s).map
             (fun m => ⟨basePath ++ ".customName", m⟩)) ++
          (match o.customNumber with
           | none => []
           | some s =>
             ((if s.length > 4 then ["Custom number is too long"] else []) ++
               (if s.data.all Char.isDigit then []
                else ["Custom number must contain only digits"])).map
               (fun m => ⟨basePath ++ ".customNumber", m⟩))

/-- Issues of `orderItemSchema` rooted at `basePath`.  `sizeUpcharge`
carries `.default(0)`, so a missing value raises no issue. -/
def orderItemIssues (basePath : String) (it : RawOrderItem) : List ZodIssue :=
  requiredStringIssues (basePath ++ ".productId") it.productId
    (fun s => nameChecks "Product ID is required"
      "String must contain at most 100 character(s)" 100 s) ++
  requiredStringIssues (basePath ++ ".productName") it.productName
    (fun s => nameChecks "Product name is required"
      "String must contain at most 200 character(s)" 200 s) ++
  requiredStringIssues (basePath ++ ".size") it.size
    (fun s => nameChecks "Size is required"
      "String must contain at most 10 character(s)" 10 s) ++
  (match it.sizeUpcharge with
   | none => []
   | some q =>
     (numberRangeChecks "Size upcharge cannot be negative"
       "Size upcharge is too high" 0 100 q).map
       (fun m => ⟨basePath ++ ".sizeUpcharge", m⟩)) ++
  requiredNumberIssues (basePath ++ ".itemPrice") it.itemPrice
    (numberRangeChecks "Item price cannot be negative" "Item price is too high" 0 10000) ++
  requiredNumberIssues (basePath ++ ".quantity") it.quantity
    (fun q =>
      (if q.den ≠ 1 then ["Quantity must be a whole number"] else []) ++
        (if q < 1 then ["Quantity must be at least 1"] else []) ++
          (if q > 100 then ["Quantity cannot exceed 100"] else [])) ++
  (match it.designOptions with
   | none => [⟨basePath ++ ".designOptions", "Required"⟩]
   | some opts =>
     (if opts.length > 10
      then [⟨basePath ++ ".designOptions",
        "Array must contain at most 10 element(s)"⟩] else []) ++
       (opts.enum.flatMap (fun p =>
         designOptionIssues (basePath ++ ".designOptions." ++ Nat.repr p.1) p.2))) ++
  requiredNumberIssues (basePath ++ ".designOptionsTotal") it.designOptionsTotal
    (numberRangeChecks "Number must be greater than or equal to 0"
      "Number must be less than or equal to 10000" 0 10000) ++
  (match it.customizationOptions with
   | none => [⟨basePath ++ ".customizationOptions", "Required"⟩]
   | some opts =>
     (if opts.length > 10
      then [⟨basePath ++ ".customizationOptions",
        "Array must contain at most 10 element(s)"⟩] else []) ++
       (opts.enum.flatMap (fun p =>
         customizationOptionIssues
           (basePath ++ ".customizationOptions." ++ Nat.repr p.1) p.2))) ++
  requiredNumberIssues (basePath ++ ".customizationOptionsTotal")
    it.customizationOptionsTotal
    (numberRangeChecks "Number must be greater than or equal to 0"
      "Number must be less than or equal to 10000" 0 10000) ++
  requiredNumberIssues (basePath ++ ".totalPrice") it.totalPrice
    (numberRangeChecks "Total price cannot be negative" "Total price is too high" 0 50000)

/-- Issues of `orderSubmissionSchema`. -/
def orderSubmissionIssues (raw : RawOrderSubmission) : List ZodIssue :=
  (match raw.contactInfo with
   | none => [⟨"contactInfo", "Required"⟩]
   | some c => contactInfoIssues "contactInfo" c) ++
  (match raw.items with
   | none => [⟨"items", "Required"⟩]
   | some items =>
     (if items.length < 1
      then [⟨"items", "Order must contain at least one item"⟩] else []) ++
       (if items.length > 50
        then [⟨"items", "Order cannot contain more than 50 items"⟩] else []) ++
         (items.enum.flatMap (fun p =>
           orderItemIssues ("items." ++ Nat.repr p.1) p.2))) ++
  requiredNumberIssues "totalAmount" raw.totalAmount
    (numberRangeChecks "Total amount cannot be negative"
      "Total amount is too high" 0 100000) ++
  (match raw.storeSlug with
   | none => []
   | some s =>
     (stringMaxChecks 50 "String must contain at most 50 character(s)" s).map
       (fun m => ⟨"storeSlug", m⟩))

/-- The transformed (trusted) contact info: e-mail lowercased and
trimmed, names sanitized, phone trimmed.  Missing fields default to
the empty string; on a successful parse every field is present. -/
def transformContactInfo (c : RawContactInfo) : ValidatedContactInfo where
  email := jsTrim (jsToLower (c.email.getD ""))
  parentFirstName := sanitizeString (c.parentFirstName.getD "")
  parentLastName := sanitizeString (c.parentLastName.getD "")
  phoneNumber := jsTrim (c.phoneNumber.getD "")

/-- The transformed design option: title sanitized. -/
def transformDesignOption (o : RawDesignOption) : ValidatedDesignOption where
  optionNumber := o.optionNumber.getD 0
  title := sanitizeString (o.title.getD "")
  price := o.price.getD 0

/-- The transformed customization option: title and custom name
sanitized. -/
def transformCustomizationOption (o : RawCustomizationOption) :
    ValidatedCustomizationOption where
  optionNumber := o.optionNumber.getD 0
  title := sanitizeString (o.title.getD "")
  price := o.price.getD 0
  customName := o.customName.map sanitizeString
  customNumber := o.customNumber

/-- The transformed order item: free-text fields sanitized,
`sizeUpcharge` defaulted to 0 when absent. -/
def transformOrderItem (it : RawOrderItem) : ValidatedOrderItem where
  productId := sanitizeString (it.productId.getD "")
  productName := sanitizeString (it.productName.getD "")
  size := sanitizeString (it.size.getD "")
  sizeUpcharge := it.sizeUpcharge.getD 0
  itemPrice := it.itemPrice.getD 0
  quantity := it.quantity.getD 0
  designOptions := (it.designOptions.getD []).map transformDesignOption
  designOptionsTotal := it.designOptionsTotal.getD 0
  customizationOptions := (it.customizationOptions.getD []).map transformCustomizationOption
  customizationOptionsTotal := it.customizationOptionsTotal.getD 0
  totalPrice := it.totalPrice.getD 0

/-- The transformed order submission. -/
def transformOrderSubmission (raw : RawOrderSubmission) : ValidatedOrderSubmission where
  contactInfo := transformContactInfo (raw.contactInfo.getD ⟨none, none, none, none⟩)
  items := (raw.items.getD []).map transformOrderItem
  totalAmount := raw.totalAmount.getD 0
  storeSlug := raw.storeSlug.map sanitizeString

/-- The result record of `validateOrderSubmission`. -/
structure ValidationResult where
  success : Bool
  data : Option ValidatedOrderSubmission
  errors : Option (List String)
  deriving DecidableEq

/-- Embedding of `validateOrderSubmission`: run the schema; on success
return the transformed data, otherwise the formatted
`path: message` error list. -/
def validateOrderSubmission (raw : RawOrderSubmission) : ValidationResult :=
  match orderSubmissionIssues raw with
  | [] => { success := true, data := some (transformOrderSubmission raw), errors := none }
  | issues =>
    { success := false, data := none,
      errors := some (issues.map (fun i => i.path ++ ": " ++ i.message)) }

end Validation

/-! ## Price verification (`src/lib/errorLogger.ts`, pricing half) -/

namespace Pricing

open Validation

/-- Size with upcharge info, as in the `SizeInfo` interface. -/
structure SizeInfo where
  size : String
  upcharge : ℚ
  deriving DecidableEq

/-- The product shape taken by `verifyPrices`: `availableSizes` is an
optional field (the submission route passes objects without it). -/
structure VerifyProduct where
  id : String
  price : ℚ
  name : String
  availableSizes : Option (List SizeInfo)
  deriving DecidableEq

/-- Catalog option shape (design or customization): number and price. -/
structure CatalogOption where
  number : ℚ
  price : ℚ
  deriving DecidableEq

/-- JavaScript number-to-string for interpolated rationals in
discrepancy messages (numerator/denominator rendering; only the shape
of the message matters to the development). -/
def qRepr (q : ℚ) : String :=
  if q.den = 1 then Int.repr q.num
  else Int.repr q.num ++ "/" ++ Nat.repr q.den

/-- The result record of `verifyPrices`. -/
structure VerifyResult where
  valid : Bool
  discrepancies : List String
  deriving DecidableEq

/-- Discrepancies contributed by one item's design options: for each
submitted option found in the catalog, a message when the submitted
price is off by more than the epsilon; unknown option numbers are
skipped.  Follows the `for (const opt of item.designOptions)` loop. -/
def designOptionDiscrepancies (opts : List ValidatedDesignOption)
    (designOptions : List CatalogOption) : List String :=
  opts.flatMap (fun opt =>
    match designOptions.find? (fun d => d.number == opt.optionNumber) with
    | some designOpt =>
      if |opt.price - designOpt.price| > 0.01 then
        ["Design option price mismatch: option " ++ qRepr opt.optionNumber ++
          " submitted $" ++ qRepr opt.price ++ ", actual $" ++ qRepr designOpt.price]
      else []
    | none => [])

/-- The running `expectedDesignTotal` of the same loop: catalog prices
of the options found; unknown option numbers contribute 0. -/
def expectedDesignTotal (opts : List ValidatedDesignOption)
    (designOptions : List CatalogOption) : ℚ :=
  opts.foldl (fun acc opt =>
    match designOptions.find? (fun d => d.number == opt.optionNumber) with
    | some designOpt => acc + designOpt.price
    | none => acc) 0

/-- Discrepancies contributed by one item's customization options. -/
def customizationOptionDiscrepancies (opts : List ValidatedCustomizationOption)
    (customizationOptions : List CatalogOption) : List String :=
  opts.flatMap (fun opt =>
    match customizationOptions.find? (fun c => c.number == opt.optionNumber) with
    | some customOpt =>
      if |opt.price - customOpt.price| > 0.01 then
        ["Customization option price mismatch: option " ++ qRepr opt.optionNumber ++
          " submitted $" ++ qRepr opt.price ++ ", actual $" ++ qRepr customOpt.price]
      else []
    | none => [])

/-- The running `expectedCustomTotal`. -/
def expectedCustomTotal (opts : List ValidatedCustomizationOption)
    (customizationOptions : List CatalogOption) : ℚ :=
  opts.foldl (fun acc opt =>
    match customizationOptions.find? (fun c => c.number == opt.optionNumber) with
    | some customOpt => acc + customOpt.price
    | none => acc) 0

/-- The discrepancies contributed by a single item in the `for (const
item of items)` loop of `verifyPrices`. -/
def itemDiscrepancies (item : ValidatedOrderItem)
    (products : List VerifyProduct)
    (designOptions customizationOptions : List CatalogOption) : List String :=
  match products.find? (fun p => p.id == item.productId) with
  | none => ["Product not found: " ++ item.productId]
  | some product =>
    let sizeInfo := (product.availableSizes.getD []).find? (fun s => s.size == item.size)
    let expectedSizeUpcharge := (sizeInfo.map (fun s => s.upcharge)).getD 0
    let submittedSizeUpcharge := item.sizeUpcharge
    let expectedItemPrice := product.price + expectedSizeUpcharge
    (if |submittedSizeUpcharge - expectedSizeUpcharge| > 0.01 then
      ["Size upcharge mismatch for " ++ product.name ++ " (" ++ item.size ++
        "): submitted $" ++ qRepr submittedSizeUpcharge ++ ", actual $" ++
        qRepr expectedSizeUpcharge]
     else []) ++
    (if |item.itemPrice - expectedItemPrice| > 0.01 then
      ["Item price mismatch for " ++ product.name ++ ": submitted $" ++
        qRepr item.itemPrice ++ ", expected $" ++ qRepr expectedItemPrice ++
        " (base $" ++ qRepr product.price ++ " + size $" ++
        qRepr expectedSizeUpcharge ++ ")"]
     else []) ++
    designOptionDiscrepancies item.designOptions designOptions ++
    customizationOptionDiscrepancies item.customizationOptions customizationOptions ++
    (let expectedTotal := expectedItemPrice +
        expectedDesignTotal item.designOptions designOptions +
        expectedCustomTotal item.customizationOptions customizationOptions
     if |item.totalPrice - expectedTotal| > 0.01 then
      ["Item total mismatch for " ++ product.name ++ ": submitted $" ++
        qRepr item.totalPrice ++ ", expected $" ++ qRepr expectedTotal]
     else [])

/-- Embedding of `verifyPrices`: collect every discrepancy over all
items; the order is valid iff no discrepancy was found. -/
def verifyPrices (items : List ValidatedOrderItem)
    (products : List VerifyProduct)
    (designOptions customizationOptions : List CatalogOption) : VerifyResult :=
  let discrepancies := items.flatMap
    (fun item => itemDiscrepancies item products designOptions customizationOptions)
  { valid := discrepancies.length == 0, discrepancies := discrepancies }

/-- Catalog price of an option number: the price found in the catalog,
0 when the number is unknown. -/
def catalogPriceOf (options : List CatalogOption) (n : ℚ) : ℚ :=
  ((options.find? (fun o => o.number == n)).map (fun o => o.price)).getD 0

/-- Spec-style restatement of the per-item check performed by
`verifyPrices`: the product must exist; size upcharge, item price,
each option price that is FOUND in the catalog, and the item total
must agree within the epsilon; the expected totals take catalog
prices with unknown option numbers contributing 0, and an unknown
option number imposes no condition of its own (it is skipped, not
flagged). -/
def itemChecksOut (item : Validation.ValidatedOrderItem)
    (products : List VerifyProduct)
    (designOptions customizationOptions : List CatalogOption) : Prop :=
  ∃ product, products.find? (fun p => p.id == item.productId) = some product ∧
    |item.sizeUpcharge -
      (((product.availableSizes.getD []).find? (fun s => s.size == item.size)).map
        (fun s => s.upcharge)).getD 0| ≤ 0.01 ∧
    |item.itemPrice - (product.price +
      (((product.availableSizes.getD []).find? (fun s => s.size == item.size)).map
        (fun s => s.upcharge)).getD 0)| ≤ 0.01 ∧
    (∀ opt ∈ item.designOptions, ∀ dOpt,
      designOptions.find? (fun d => d.number == opt.optionNumber) = some dOpt →
        |opt.price - dOpt.price| ≤ 0.01) ∧
    (∀ opt ∈ item.customizationOptions, ∀ cOpt,
      customizationOptions.find? (fun c => c.number == opt.optionNumber) = some cOpt →
        |opt.price - cOpt.price| ≤ 0.01) ∧
    |item.totalPrice - (product.price +
      (((product.availableSizes.getD []).find? (fun s => s.size == item.size)).map
        (fun s => s.upcharge)).getD 0 +
      (item.designOptions.map
        (fun o => catalogPriceOf designOptions o.optionNumber)).sum +
      (item.customizationOptions.map
        (fun o => catalogPriceOf customizationOptions o.optionNumber)).sum)| ≤ 0.01

end Pricing

/-! ## Submission route (`src/app/api/orders/submit/route.ts`) -/

namespace Route

open Validation Pricing RateLimit OrderNumber

/-- The full catalog product as fetched by `fetchProducts` (the fields
the route consumes; per `types.ts` a product carries per-size upcharge
info in `availableSizes`). -/
structure CatalogProduct where
  id : String
  name : String
  price : ℚ
  availableSizes : List SizeInfo
  deriving DecidableEq

/-- The route's STEP-4 recomputation `serverCalculatedTotal`: reduce
over the validated items; a missing product contributes nothing, the
design and customization totals are summed from catalog prices
(unknown option numbers contributing 0), and the per-item total
`(product.price + designTotal + customTotal) * quantity` is added. -/
def serverCalculatedTotal (items : List ValidatedOrderItem)
    (products : List CatalogProduct)
    (designOptions customizationOptions : List CatalogOption) : ℚ :=
  items.foldl (fun sum item =>
    match products.find? (fun p => p.id == item.productId) with
    | none => sum
    | some product =>
      let designTotal := item.designOptions.foldl (fun dSum opt =>
        dSum + (((designOptions.find? (fun d => d.number == opt.optionNumber)).map
          (fun d => d.price)).getD 0)) 0
      let customTotal := item.customizationOptions.foldl (fun cSum opt =>
        cSum + (((customizationOptions.find? (fun c => c.number == opt.optionNumber)).map
          (fun c => c.price)).getD 0)) 0
      let itemTotal := (product.price + designTotal + customTotal) * item.quantity
      sum + itemTotal) 0

/-- The claim's reading of the recomputed order total, stated for
comparison with `serverCalculatedTotal`: the sum over all items of
(catalog base price plus the catalog size upcharge for the item's
size plus the catalog prices of the item's design and customization
options) multiplied by the item's quantity. -/
def claimedTotalAmount (items : List ValidatedOrderItem)
    (products : List CatalogProduct)
    (designOptions customizationOptions : List CatalogOption) : ℚ :=
  (items.map (fun item =>
    match products.find? (fun p => p.id == item.productId) with
    | none => 0
    | some p =>
      (p.price +
        (((p.availableSizes.find? (fun s => s.size == item.size)).map
          (fun s => s.upcharge)).getD 0) +
        (item.designOptions.map
          (fun o => Pricing.catalogPriceOf designOptions o.optionNumber)).sum +
        (item.customizationOptions.map
          (fun o => Pricing.catalogPriceOf customizationOptions o.optionNumber)).sum) *
        item.quantity)).sum

/-- Spec-style restatement of the route's recomputation: the sum over
all items of (catalog base price plus the catalog prices of the
item's design and customization options, unknown option numbers
contributing 0) multiplied by the item's quantity; an item whose
product is missing from the catalog contributes 0, and no size
upcharge enters the total. -/
def serverTotalSpec (items : List ValidatedOrderItem)
    (products : List CatalogProduct)
    (designOptions customizationOptions : List CatalogOption) : ℚ :=
  (items.map (fun item =>
    match products.find? (fun p => p.id == item.productId) with
    | none => 0
    | some p =>
      (p.price +
        (item.designOptions.map
          (fun o => Pricing.catalogPriceOf designOptions o.optionNumber)).sum +
        (item.customizationOptions.map
          (fun o => Pricing.catalogPriceOf customizationOptions o.optionNumber)).sum) *
        item.quantity)).sum

/-- The `FEATURE_FLAGS` record of the route (all enabled). -/
structure FeatureFlags where
  ENABLE_GOOGLE_SHEETS : Bool
  ENABLE_PDF_GENERATION : Bool
  ENABLE_CUSTOMER_EMAIL : Bool
  ENABLE_ADMIN_EMAIL : Bool

/-- `FEATURE_FLAGS` as set in the source: every step enabled. -/
def FEATURE_FLAGS : FeatureFlags where
  ENABLE_GOOGLE_SHEETS := true
  ENABLE_PDF_GENERATION := true
  ENABLE_CUSTOMER_EMAIL := true
  ENABLE_ADMIN_EMAIL := true

/-- Outcomes of the external calls made by `processOrderAsync`:
`none` means the awaited call threw.  `sheetsResult = some b` is a
`submitOrder` return with `success = b`; `adminEmail` is the
configured `ContactMeEmail`/`Contact_Me_Email` value, if any. -/
structure FulfillmentEffects where
  sheetsResult : Option Bool
  pdfResult : Option Unit
  customerEmailResult : Option Unit
  adminEmailResult : Option Unit
  adminEmail : Option String

/-- Observable trace of one `processOrderAsync` run: which steps were
attempted and completed, whether the customer e-mail carried the PDF
attachment, and whether the function re-threw an exception to its
caller. -/
structure FulfillmentTrace where
  sheetsAttempted : Bool
  sheetsSucceeded : Bool
  pdfAttempted : Bool
  pdfGenerated : Bool
  customerEmailAttempted : Bool
  customerEmailHasAttachment : Bool
  customerEmailSent : Bool
  adminEmailAttempted : Bool
  thrown : Bool
  deriving DecidableEq

/-- Steps 3 and 4 of `processOrderAsync` (customer e-mail, then admin
e-mail), reached with the given `pdfBuffer` availability; any `await`
that throws propagates to the single surrounding `catch`, which
re-throws. -/
def emailSteps (fx : FulfillmentEffects) (pdfGenerated : Bool)
    (sheetsAttempted sheetsSucceeded pdfAttempted : Bool) : FulfillmentTrace :=
  if FEATURE_FLAGS.ENABLE_CUSTOMER_EMAIL then
    match fx.customerEmailResult with
    | none =>
      ⟨sheetsAttempted, sheetsSucceeded, pdfAttempted, pdfGenerated,
        true, pdfGenerated, false, false, true⟩
    | some _ =>
      if FEATURE_FLAGS.ENABLE_ADMIN_EMAIL then
        match fx.adminEmail with
        | some _ =>
          match fx.adminEmailResult with
          | none =>
            ⟨sheetsAttempted, sheetsSucceeded, pdfAttempted, pdfGenerated,
              true, pdfGenerated, true, true, true⟩
          | some _ =>
            ⟨sheetsAttempted, sheetsSucceeded, pdfAttempted, pdfGenerated,
              true, pdfGenerated, true, true, false⟩
        | none =>
          ⟨sheetsAttempted, sheetsSucceeded, pdfAttempted, pdfGenerated,
            true, pdfGenerated, true, false, false⟩
      else
        ⟨sheetsAttempted, sheetsSucceeded, pdfAttempted, pdfGenerated,
          true, pdfGenerated, true, false, false⟩
  else
    if FEATURE_FLAGS.ENABLE_ADMIN_EMAIL then
      match fx.adminEmail with
      | some _ =>
        match fx.adminEmailResult with
        | none =>
          ⟨sheetsAttempted, sheetsSucceeded, pdfAttempted, pdfGenerated,
            false, false, false, true, true⟩
        | some _ =>
          ⟨sheetsAttempted, sheetsSucceeded, pdfAttempted, pdfGenerated,
            false, false, false, true, false⟩
      | none =>
        ⟨sheetsAttempted, sheetsSucceeded, pdfAttempted, pdfGenerated,
          false, false, false, false, false⟩
    else
      ⟨sheetsAttempted, sheetsSucceeded, pdfAttempted, pdfGenerated,
        false, false, false, false, false⟩

/-- Embedding of `processOrderAsync`: the four fulfillment steps run in
sequence inside one `try`; any step's exception reaches the single
`catch`, which logs and re-throws (`thrown = true`), so no later step
runs.  Step 1 throws either when `submitOrder` itself throws or when
it returns `success = false`. -/
def processOrderAsync (fx : FulfillmentEffects) : FulfillmentTrace :=
  if FEATURE_FLAGS.ENABLE_GOOGLE_SHEETS then
    match fx.sheetsResult with
    | none => ⟨true, false, false, false, false, false, false, false, true⟩
    | some false => ⟨true, false, false, false, false, false, false, false, true⟩
    | some true => pdfStep fx true true
  else pdfStep fx false false
where
  /-- Step 2 of `processOrderAsync`: PDF generation. -/
  pdfStep (fx : FulfillmentEffects) (sheetsAttempted sheetsSucceeded : Bool) :
      FulfillmentTrace :=
    if FEATURE_FLAGS.ENABLE_PDF_GENERATION then
      match fx.pdfResult with
      | none =>
        ⟨sheetsAttempted, sheetsSucceeded, true, false, false, false, false,
          false, true⟩
      | some _ => emailSteps fx true sheetsAttempted sheetsSucceeded true
    else emailSteps fx false sheetsAttempted sheetsSucceeded false

/-- Outcomes of the external calls made by the `POST` handler itself,
plus the inputs of the order-number allocator.  `none` means the
awaited call threw and control reaches the handler's outer `catch`. -/
structure PostEffects where
  clientIP : String
  parsedBody : Option RawOrderSubmission
  catalog : Option (List CatalogProduct × List CatalogOption × List CatalogOption)
  configFetch : Option Unit
  fulfill : FulfillmentEffects
  vercelEnv : Option String
  vercelSet : Bool
  dateY : Nat
  dateM : Nat
  dateD : Nat
  seqNow : Nat
  ensureSheetOk : Bool
  appendResult : Option (Option String)
  updateOk : Bool

/-- The HTTP response produced by the `POST` handler: status code,
headers, and the JSON body fields used by the route. -/
structure PostResponse where
  status : Nat
  headers : List (String × String)
  success : Bool
  error : Option String
  details : Option (List String)
  retryAfter : Option Int
  orderNumber : Option String
  deriving DecidableEq

/-- Embedding of the `POST` handler of `route.ts`: rate limiting, body
parse, validation, catalog fetch and price verification, server-side
total recomputation, order-number generation, config fetch, and the
fulfillment call (whose failure is caught, so a 200 is still
returned).  Every response except the outer-catch 500 carries the
rate-limit headers; the 500 response is built with no headers. -/
def POST (st : RateLimitState) (now : Int) (fx : PostEffects) :
    PostResponse × RateLimitState :=
  let checked := checkRateLimit fx.clientIP ORDER_RATE_LIMIT now st
  let rl := checked.1
  let st1 := checked.2
  let rlHeaders := getRateLimitHeaders rl ORDER_RATE_LIMIT
  if rl.allowed = false then
    ({ status := 429,
       headers := rlHeaders ++ [("Retry-After", Int.repr (jsCeilDiv1000 rl.resetIn))],
       success := false,
       error := some "Too many orders submitted. Please wait a minute before trying again.",
       details := none, retryAfter := some (jsCeilDiv1000 rl.resetIn),
       orderNumber := none }, st1)
  else
    match fx.parsedBody with
    | none =>
      ({ status := 500, headers := [], success := false,
         error := some "Internal server error", details := none,
         retryAfter := none, orderNumber := none }, st1)
    | some body =>
      let validationResult := validateOrderSubmission body
      match validationResult.data with
      | none =>
        ({ status := 400, headers := rlHeaders, success := false,
           error := some "Invalid order data",
           details := validationResult.errors, retryAfter := none,
           orderNumber := none }, st1)
      | some validatedData =>
        match fx.catalog with
        | none =>
          ({ status := 500, headers := [], success := false,
             error := some "Internal server error", details := none,
             retryAfter := none, orderNumber := none }, st1)
        | some (products, designOptions, customizationOptions) =>
          let priceVerification := verifyPrices validatedData.items
            (products.map (fun p => ⟨p.id, p.price, p.name, none⟩))
            (designOptions.map (fun d => ⟨d.number, d.price⟩))
            (customizationOptions.map (fun c => ⟨c.number, c.price⟩))
          if priceVerification.valid = false then
            ({ status := 400, headers := rlHeaders, success := false,
               error := some "Price verification failed. Please refresh the page and try again.",
               details := none, retryAfter := none, orderNumber := none }, st1)
          else
            let _serverTotal := serverCalculatedTotal validatedData.items
              products designOptions customizationOptions
            let slug := match validatedData.storeSlug with
              | some s => if s = "" then "default" else s
              | none => "default"
            let fullOrderNumber := generateOrderNumber fx.vercelEnv fx.vercelSet
              fx.dateY fx.dateM fx.dateD slug fx.seqNow fx.ensureSheetOk
              fx.appendResult fx.updateOk
            let shortOrderNumber := getShortOrderNumber fullOrderNumber
            match fx.configFetch with
            | none =>
              ({ status := 500, headers := [], success := false,
                 error := some "Internal server error", details := none,
                 retryAfter := none, orderNumber := none }, st1)
            | some _ =>
              let _trace := processOrderAsync fx.fulfill
              ({ status := 200, headers := rlHeaders, success := true,
                 error := none, details := none, retryAfter := none,
                 orderNumber := some shortOrderNumber }, st1)

end Route

/-! ## Helper lemmas on the string utilities -/

theorem splitChar_ne_nil (sep : Char) (l : List Char) : splitChar sep l ≠ [] := by
  cases l with
  | nil => simp [splitChar]
  | cons c cs =>
    simp only [splitChar]
    split
    · simp
    · split <;> simp

theorem two_le_splitChar_length (sep : Char) (l : List Char) (hsep : sep ∈ l) :
    2 ≤ (splitChar sep l).length := by
  induction l with
  | nil => cases hsep
  | cons c cs ih =>
    simp only [splitChar]
    by_cases hc : c = sep
    · simp only [if_pos hc, List.length_cons]
      have h1 : 0 < (splitChar sep cs).length :=
        List.length_pos.mpr (splitChar_ne_nil sep cs)
      omega
    · have hmem : sep ∈ cs := by
        rcases List.mem_cons.mp hsep with h | h
        · exact absurd h.symm hc
        · exact h
      simp only [if_neg hc]
      rcases hsp : splitChar sep cs with _ | ⟨h, t⟩
      · exact absurd hsp (splitChar_ne_nil sep cs)
      · have h2 := ih hmem
        rw [hsp] at h2
        simpa using h2

theorem splitChar_of_not_mem (sep : Char) (l : List Char) (h : sep ∉ l) :
    splitChar sep l = [l] := by
  induction l with
  | nil => rfl
  | cons c cs ih =>
    have hc : ¬ c = sep := fun e => h (e ▸ List.mem_cons_self c cs)
    have hcs : sep ∉ cs := fun m => h (List.mem_cons_of_mem _ m)
    simp only [splitChar, if_neg hc, ih hcs]

theorem splitChar_append_of_not_mem (sep : Char) (a r : List Char) (h : sep ∉ a) :
    splitChar sep (a ++ sep :: r) = a :: splitChar sep r := by
  induction a with
  | nil => simp [splitChar]
  | cons c a ih =>
    have hc : ¬ c = sep := fun e => h (e ▸ List.mem_cons_self c a)
    have ha : sep ∉ a := fun m => h (List.mem_cons_of_mem _ m)
    simp only [List.cons_append, splitChar, if_neg hc, List.append_eq]
    rw [ih ha]

theorem splitChar_getLast?_append (sep : Char) (a b : List Char) :
    (splitChar sep (a ++ sep :: b)).getLast? = (splitChar sep b).getLast? := by
  induction a with
  | nil =>
    rcases hsp : splitChar sep b with _ | ⟨h, t⟩
    · exact absurd hsp (splitChar_ne_nil sep b)
    · simp [splitChar, hsp]
  | cons c a ih =>
    simp only [List.cons_append, splitChar]
    by_cases hc : c = sep
    · simp only [if_pos hc]
      rcases hsp : splitChar sep (a ++ sep :: b) with _ | ⟨h, t⟩
      · exact absurd hsp (splitChar_ne_nil sep _)
      · rw [List.getLast?_cons_cons, ← hsp, ih]
    · simp only [if_neg hc]
      rcases hsp : splitChar sep (a ++ sep :: b) with _ | ⟨h, t⟩
      · exact absurd hsp (splitChar_ne_nil sep _)
      · have hlen : 2 ≤ (splitChar sep (a ++ sep :: b)).length :=
          two_le_splitChar_length sep _ (by simp)
        rw [hsp] at hlen
        rcases t with _ | ⟨t1, ts⟩
        · simp at hlen
        · rw [List.getLast?_cons_cons, ← ih, hsp, List.getLast?_cons_cons]

theorem eq_append_of_getLast? {α : Type} (l : List α) (x : α)
    (h : l.getLast? = some x) : ∃ a, l = a ++ [x] := by
  induction l with
  | nil => simp at h
  | cons c cs ih =>
    rcases cs with _ | ⟨d, ds⟩
    · refine ⟨[], ?_⟩
      simp only [List.getLast?_singleton, Option.some_inj] at h
      rw [h]
      rfl
    · rw [List.getLast?_cons_cons] at h
      obtain ⟨a, ha⟩ := ih h
      exact ⟨c :: a, by simp [ha]⟩

theorem string_mk_data (l : List Char) : (String.mk l).data = l := rfl

namespace OrderNumber

theorem getShortOrderNumber_concat (a b : List Char) (hb : '-' ∉ b) :
    getShortOrderNumber (String.mk (a ++ '-' :: b)) =
      if b.isEmpty then "000000" else String.mk b := by
  have h1 : (splitChar '-' (String.mk (a ++ '-' :: b)).data).getLast? = some b := by
    rw [string_mk_data, splitChar_getLast?_append, splitChar_of_not_mem _ _ hb]
    rfl
  simp [getShortOrderNumber, h1]

end OrderNumber

/-- C10: `getShortOrderNumber` is total and never returns the empty
string; it returns the final dash-delimited segment: the whole input
when there is no dash, and the fallback string when the final segment
is empty (empty input or input ending in a dash). -/
theorem C10_short_order_number :
    (∀ s : String, OrderNumber.getShortOrderNumber s ≠ "") ∧
    (∀ s : String, '-' ∉ s.data → s ≠ "" →
      OrderNumber.getShortOrderNumber s = s) ∧
    (∀ s : String, s = "" ∨ s.data.getLast? = some '-' →
      OrderNumber.getShortOrderNumber s = "000000") ∧
    (∀ a b : List Char, '-' ∉ b → b ≠ [] →
      OrderNumber.getShortOrderNumber (String.mk (a ++ '-' :: b)) = String.mk b) := by
  refine ⟨?_, ?_, ?_, ?_⟩
  · intro s
    unfold OrderNumber.getShortOrderNumber
    rcases hsp : (splitChar '-' s.data).getLast? with _ | lastPart
    · decide
    · by_cases he : lastPart.isEmpty
      · simp [he]
      · simp only [if_neg he]
        intro habs
        have hdata : lastPart = [] := by
          have := congrArg String.data habs
          simpa using this
        simp [hdata] at he
  · intro s hnd hne
    have h2 : s.data.isEmpty = false := by
      cases s with
      | mk d =>
        cases d with
        | nil => exact absurd rfl hne
        | cons c cs => rfl
    unfold OrderNumber.getShortOrderNumber
    rw [splitChar_of_not_mem _ _ hnd]
    cases s with
    | mk d =>
      simp only [List.getLast?_singleton, h2, Bool.false_eq_true, if_false]
  · intro s h
    rcases h with h | h
    · rw [h]
      rfl
    · obtain ⟨a, ha⟩ := eq_append_of_getLast? _ _ h
      have : s = String.mk (a ++ '-' :: []) := by
        cases s with
        | mk d => simpa using congrArg String.mk ha
      rw [this, OrderNumber.getShortOrderNumber_concat a [] (by simp)]
      rfl
  · intro a b hb hne
    rw [OrderNumber.getShortOrderNumber_concat a b hb,
      if_neg (by simpa [List.isEmpty_iff] using hne)]

/-- Witness for C10 at concrete inputs: a dash-free input is returned
whole, and an input ending in a dash yields the fallback. -/
theorem C10_short_order_number_witness :
    OrderNumber.getShortOrderNumber "abc" = "abc" ∧
    OrderNumber.getShortOrderNumber "x-" = "000000" ∧
    OrderNumber.getShortOrderNumber (String.mk ("CVL".data ++ '-' :: "000042".data)) =
      String.mk "000042".data :=
  ⟨C10_short_order_number.2.1 "abc" (by decide) (by decide),
   C10_short_order_number.2.2.1 "x-" (Or.inr (by decide)),
   C10_short_order_number.2.2.2 "CVL".data "000042".data (by decide) (by decide)⟩

namespace RateLimit

theorem cleanup_store_none (w now : Int) (st : RateLimitState) (ip : String)
    (he : st.store ip = none) :
    (cleanupExpiredEntries w now st).store ip = none := by
  unfold cleanupExpiredEntries
  split
  · exact he
  · simp [he]

theorem cleanup_store_live (w now : Int) (st : RateLimitState) (ip : String)
    (e : RateLimitEntry) (he : st.store ip = some e)
    (hin : now - e.firstRequestTime ≤ w) :
    (cleanupExpiredEntries w now st).store ip = some e := by
  unfold cleanupExpiredEntries
  split
  · exact he
  · simp only [he]
    rw [if_neg (by omega)]

theorem checkRateLimit_first (ip : String) (cfg : RateLimitConfig) (now : Int)
    (st : RateLimitState) (h : st.store ip = none) :
    (checkRateLimit ip cfg now st).1 =
      ⟨true, (cfg.maxRequests : Int) - 1, cfg.windowMs, 1⟩ ∧
    (checkRateLimit ip cfg now st).2.store ip = some ⟨1, now⟩ := by
  have hc := cleanup_store_none cfg.windowMs now st ip h
  unfold checkRateLimit
  simp [hc]

theorem checkRateLimit_expired (ip : String) (cfg : RateLimitConfig) (now : Int)
    (st : RateLimitState) (e : RateLimitEntry) (he : st.store ip = some e)
    (hex : now - e.firstRequestTime > cfg.windowMs) :
    (checkRateLimit ip cfg now st).1 =
      ⟨true, (cfg.maxRequests : Int) - 1, cfg.windowMs, 1⟩ ∧
    (checkRateLimit ip cfg now st).2.store ip = some ⟨1, now⟩ := by
  have hc : (cleanupExpiredEntries cfg.windowMs now st).store ip = some e ∨
      (cleanupExpiredEntries cfg.windowMs now st).store ip = none := by
    unfold cleanupExpiredEntries
    split
    · exact Or.inl he
    · right
      simp only [he]
      rw [if_pos hex]
  rcases hc with hc | hc
  · unfold checkRateLimit
    simp [hc, if_pos hex]
  · unfold checkRateLimit
    simp [hc]

theorem checkRateLimit_incr (ip : String) (cfg : RateLimitConfig) (now : Int)
    (st : RateLimitState) (e : RateLimitEntry) (he : st.store ip = some e)
    (hin : now - e.firstRequestTime ≤ cfg.windowMs) :
    (checkRateLimit ip cfg now st).1 =
      (if e.count + 1 > cfg.maxRequests then
        ⟨false, 0, cfg.windowMs - (now - e.firstRequestTime), e.count + 1⟩
       else
        ⟨true, (cfg.maxRequests : Int) - (e.count + 1),
          cfg.windowMs - (now - e.firstRequestTime), e.count + 1⟩) ∧
    (checkRateLimit ip cfg now st).2.store ip =
      some ⟨e.count + 1, e.firstRequestTime⟩ := by
  have hc := cleanup_store_live cfg.windowMs now st ip e he hin
  unfold checkRateLimit
  simp only [hc]
  rw [if_neg (by omega)]
  split <;> simp

end RateLimit

/-- C5: throttle boundary with `maxRequests = 3`, `windowMs = 60000`:
for a key with no live entry, the first call is allowed with
`current = 1`; the fourth call within the same window is denied;
further denials keep incrementing the count without resetting the
window start; and the first call made more than `windowMs` after the
window start is allowed again with a fresh window. -/
theorem C5_throttle_boundary (ip : String) (st : RateLimit.RateLimitState)
    (t0 t1 t2 t3 t4 t5 : Int) (h0 : st.store ip = none)
    (h01 : t0 ≤ t1) (h12 : t1 ≤ t2) (h23 : t2 ≤ t3) (h34 : t3 ≤ t4)
    (hw3 : t3 - t0 ≤ 60000) (hw4 : t4 - t0 ≤ 60000) (h5 : t5 - t0 > 60000) :
    let cfg := RateLimit.ORDER_RATE_LIMIT
    let r1 := RateLimit.checkRateLimit ip cfg t0 st
    let r2 := RateLimit.checkRateLimit ip cfg t1 r1.2
    let r3 := RateLimit.checkRateLimit ip cfg t2 r2.2
    let r4 := RateLimit.checkRateLimit ip cfg t3 r3.2
    let r5 := RateLimit.checkRateLimit ip cfg t4 r4.2
    let r6 := RateLimit.checkRateLimit ip cfg t5 r5.2
    (r1.1.allowed = true ∧ r1.1.current = 1) ∧
    r2.1.allowed = true ∧ r3.1.allowed = true ∧
    (r4.1.allowed = false ∧ r4.1.current = 4) ∧
    (r5.1.allowed = false ∧ r5.1.current = 5 ∧
      r5.2.store ip = some ⟨5, t0⟩) ∧
    (r6.1.allowed = true ∧ r6.1.current = 1 ∧
      r6.2.store ip = some ⟨1, t5⟩) := by
  intro cfg r1 r2 r3 r4 r5 r6
  have hmax : cfg.maxRequests = 3 := rfl
  have hwin : cfg.windowMs = 60000 := rfl
  obtain ⟨hr1, hs1⟩ := RateLimit.checkRateLimit_first ip cfg t0 st h0
  obtain ⟨hr2, hs2⟩ := RateLimit.checkRateLimit_incr ip cfg t1 r1.2 ⟨1, t0⟩ hs1
    (by rw [hwin]; simp; omega)
  rw [if_neg (by simp [hmax])] at hr2
  obtain ⟨hr3, hs3⟩ := RateLimit.checkRateLimit_incr ip cfg t2 r2.2 ⟨2, t0⟩ hs2
    (by rw [hwin]; simp; omega)
  rw [if_neg (by simp [hmax])] at hr3
  obtain ⟨hr4, hs4⟩ := RateLimit.checkRateLimit_incr ip cfg t3 r3.2 ⟨3, t0⟩ hs3
    (by rw [hwin]; simp; omega)
  rw [if_pos (by simp [hmax])] at hr4
  obtain ⟨hr5, hs5⟩ := RateLimit.checkRateLimit_incr ip cfg t4 r4.2 ⟨4, t0⟩ hs4
    (by rw [hwin]; simp; omega)
  rw [if_pos (by simp [hmax])] at hr5
  obtain ⟨hr6, hs6⟩ := RateLimit.checkRateLimit_expired ip cfg t5 r5.2 ⟨5, t0⟩ hs5
    (by rw [hwin]; simp; omega)
  refine ⟨⟨by rw [hr1], by rw [hr1]⟩, by rw [hr2], by rw [hr3],
    ⟨by rw [hr4], by rw [hr4]⟩, ⟨by rw [hr5], by rw [hr5], hs5⟩,
    ⟨by rw [hr6], by rw [hr6], hs6⟩⟩

/-- Witness for C5 at concrete times: calls at 0, 1, 2, 3, 4 ms and a
final call at 60001 ms from a fresh store. -/
theorem C5_throttle_boundary_witness :
    let cfg := RateLimit.ORDER_RATE_LIMIT
    let st : RateLimit.RateLimitState := ⟨fun _ => none, 0⟩
    let r1 := RateLimit.checkRateLimit "1.2.3.4" cfg 0 st
    let r2 := RateLimit.checkRateLimit "1.2.3.4" cfg 1 r1.2
    let r3 := RateLimit.checkRateLimit "1.2.3.4" cfg 2 r2.2
    let r4 := RateLimit.checkRateLimit "1.2.3.4" cfg 3 r3.2
    let r5 := RateLimit.checkRateLimit "1.2.3.4" cfg 4 r4.2
    let r6 := RateLimit.checkRateLimit "1.2.3.4" cfg 60001 r5.2
    (r1.1.allowed = true ∧ r1.1.current = 1) ∧
    r2.1.allowed = true ∧ r3.1.allowed = true ∧
    (r4.1.allowed = false ∧ r4.1.current = 4) ∧
    (r5.1.allowed = false ∧ r5.1.current = 5 ∧
      r5.2.store "1.2.3.4" = some ⟨5, 0⟩) ∧
    (r6.1.allowed = true ∧ r6.1.current = 1 ∧
      r6.2.store "1.2.3.4" = some ⟨1, 60001⟩) :=
  C5_throttle_boundary "1.2.3.4" ⟨fun _ => none, 0⟩ 0 1 2 3 4 60001 rfl
    (by decide) (by decide) (by decide) (by decide) (by decide) (by decide)
    (by decide)

/-- C3: order-number allocation is total (the embedding returns a value
on every path); on the success path the returned sequence is the
assigned row position minus the single header row, independently of
the best-effort row update's outcome, and when the append call throws
the timestamp-derived fallback `now % 1000000` is returned. -/
theorem C3_sequence_allocation :
    (∀ (env : String) (now : Nat) (s : String) (r : Nat) (u : Bool),
      env ≠ "LOCAL" → OrderNumber.extractRowNumber s.data = some r →
        OrderNumber.getNextSequenceNumber env now true (some (some s)) u = r - 1) ∧
    (∀ (env : String) (now : Nat) (ensureSheetOk u₁ u₂ : Bool)
        (ap : Option (Option String)),
      OrderNumber.getNextSequenceNumber env now ensureSheetOk ap u₁ =
        OrderNumber.getNextSequenceNumber env now ensureSheetOk ap u₂) ∧
    (∀ (env : String) (now : Nat) (ensureSheetOk u : Bool),
      OrderNumber.getNextSequenceNumber env now ensureSheetOk none u = now % 1000000) := by
  refine ⟨?_, ?_, ?_⟩
  · intro env now s r u henv hr
    simp [OrderNumber.getNextSequenceNumber, henv, hr]
  · intro env now ensureSheetOk u₁ u₂ ap
    rfl
  · intro env now ensureSheetOk u
    simp only [OrderNumber.getNextSequenceNumber]
    split
    · rfl
    · split <;> rfl

/-- Witness for C3 at a concrete `updatedRange`: row 5 of the sequence
sheet yields sequence 4, whatever the best-effort update did, and a
thrown append yields the timestamp fallback. -/
theorem C3_sequence_allocation_witness :
    OrderNumber.getNextSequenceNumber "PROD" 1700000000123 true
      (some (some "OrderSequence!A5:C5")) false = 4 ∧
    OrderNumber.getNextSequenceNumber "PROD" 1700000000123 true none true =
      1700000000123 % 1000000 :=
  ⟨C3_sequence_allocation.1 "PROD" 1700000000123 "OrderSequence!A5:C5" 5 false
      (by decide) (by decide),
   C3_sequence_allocation.2.2 "PROD" 1700000000123 true true⟩

theorem decDigit_isDigit (n : Nat) : (decDigit n).isDigit = true := by
  have hall : ∀ m, m < 10 → (Char.ofNat (48 + m)).isDigit = true := by decide
  have h : n % 10 < 10 := Nat.mod_lt _ (by norm_num)
  unfold decDigit
  exact hall (n % 10) h

theorem decDigitsCore_isDigit : ∀ (fuel n : Nat) (acc : List Char),
    (∀ c ∈ acc, c.isDigit = true) →
      ∀ c ∈ decDigitsCore fuel n acc, c.isDigit = true := by
  intro fuel
  induction fuel with
  | zero => intro n acc hacc c hc; exact hacc c hc
  | succ fuel ih =>
    intro n acc hacc c hc
    simp only [decDigitsCore] at hc
    split at hc
    · rcases List.mem_cons.mp hc with rfl | h
      · exact decDigit_isDigit n
      · exact hacc c h
    · refine ih _ _ ?_ c hc
      intro x hx
      rcases List.mem_cons.mp hx with rfl | h
      · exact decDigit_isDigit _
      · exact hacc x h

theorem decDigits_isDigit (n : Nat) : ∀ c ∈ decDigits n, c.isDigit = true :=
  decDigitsCore_isDigit _ _ [] (by simp)

theorem decDigitsCore_length : ∀ (fuel n k : Nat) (acc : List Char),
    n < 10 ^ k → 1 ≤ k → n < fuel →
      (decDigitsCore fuel n acc).length ≤ k + acc.length := by
  intro fuel
  induction fuel with
  | zero => intro n k acc _ _ hf; omega
  | succ fuel ih =>
    intro n k acc h hk hf
    simp only [decDigitsCore]
    split
    · simp only [List.length_cons]
      omega
    · rename_i h10
      have hdiv : n / 10 < 10 ^ (k - 1) := by
        rw [Nat.div_lt_iff_lt_mul (by norm_num)]
        have he : 10 ^ (k - 1) * 10 = 10 ^ k := by
          rw [← pow_succ]
          congr 1
          omega
        rw [he]
        exact h
      have hfl : n / 10 < fuel := by
        have := Nat.div_lt_self (show 0 < n by omega) (show 1 < 10 by norm_num)
        omega
      have hrec := ih (n / 10) (k - 1) (decDigit (n % 10) :: acc) hdiv (by
        rcases Nat.lt_or_ge k 2 with hk2 | hk2
        · exfalso
          have hk1 : k = 1 := by omega
          rw [hk1, pow_one] at h
          omega
        · omega) hfl
      simp only [List.length_cons] at hrec
      have hk2 : 2 ≤ k := by
        rcases Nat.lt_or_ge k 2 with hk2 | hk2
        · exfalso
          have hk1 : k = 1 := by omega
          rw [hk1, pow_one] at h
          omega
        · exact hk2
      omega

theorem decDigits_length_le (n k : Nat) (h : n < 10 ^ k) (hk : 1 ≤ k) :
    (decDigits n).length ≤ k := by
  have := decDigitsCore_length (n + 1) n k [] h hk (by omega)
  simpa using this

theorem padStart_length_of_le (l : List Char) (k : Nat) (c : Char)
    (h : l.length ≤ k) : (padStart l k c).length = k := by
  simp only [padStart, List.length_append, List.length_replicate]
  omega

theorem padStart_mem (l : List Char) (k : Nat) (c : Char) :
    ∀ x ∈ padStart l k c, x = c ∨ x ∈ l := by
  intro x hx
  rcases List.mem_append.mp hx with h | h
  · exact Or.inl (List.eq_of_mem_replicate h)
  · exact Or.inr h

theorem padStart_decDigits_isDigit (n k : Nat) :
    ∀ c ∈ padStart (decDigits n) k '0', c.isDigit = true := by
  intro c hc
  rcases padStart_mem _ _ _ c hc with rfl | h
  · decide
  · exact decDigits_isDigit n c h

theorem isDigit_ne_dash {c : Char} (h : c.isDigit = true) : c ≠ '-' := by
  intro e
  rw [e] at h
  exact absurd h (by decide)

theorem dash_not_mem_of_isDigit (l : List Char)
    (h : ∀ c ∈ l, c.isDigit = true) : '-' ∉ l :=
  fun hm => isDigit_ne_dash (h '-' hm) rfl

theorem filter_ne_dash_of_isDigit (l : List Char)
    (h : ∀ c ∈ l, c.isDigit = true) : l.filter (fun c => c ≠ '-') = l :=
  List.filter_eq_self.mpr (fun c hc => by
    simpa using isDigit_ne_dash (h c hc))

theorem isoDateData_filter (y m d : Nat) :
    (OrderNumber.isoDateData y m d).filter (fun c => c ≠ '-') =
      padStart (decDigits y) 4 '0' ++ padStart (decDigits m) 2 '0' ++
        padStart (decDigits d) 2 '0' := by
  unfold OrderNumber.isoDateData
  rw [List.filter_append, List.filter_cons, List.filter_append, List.filter_cons]
  rw [filter_ne_dash_of_isDigit _ (padStart_decDigits_isDigit y 4),
    filter_ne_dash_of_isDigit _ (padStart_decDigits_isDigit m 2),
    filter_ne_dash_of_isDigit _ (padStart_decDigits_isDigit d 2)]
  simp [List.append_assoc]

/-- C6: in a production-like context (with the assigned sequence at
most 999999) `generateOrderNumber` for store `phenoms` yields
`CVL-PROD-PHENOMS-` followed by an 8-digit date, a dash and a 6-digit
zero-padded sequence; splitting on dashes gives exactly the five
segments, and `getShortOrderNumber` returns the final one. -/
theorem C6_order_number_format (vercelSet : Bool) (y m d now : Nat)
    (ensureSheetOk : Bool) (appendResult : Option (Option String)) (updateOk : Bool)
    (hy : y < 10000) (hm : m < 100) (hd : d < 100)
    (hseq : OrderNumber.getNextSequenceNumber "PROD" now ensureSheetOk
      appendResult updateOk ≤ 999999) :
    ∃ dateStr seqStr : List Char,
      OrderNumber.generateOrderNumber (some "production") vercelSet y m d "phenoms"
          now ensureSheetOk appendResult updateOk =
        String.mk ("CVL".data ++ '-' :: ("PROD".data ++ '-' :: ("PHENOMS".data ++ '-' ::
          (dateStr ++ '-' :: seqStr)))) ∧
      dateStr.length = 8 ∧ (∀ c ∈ dateStr, c.isDigit = true) ∧
      seqStr.length = 6 ∧ (∀ c ∈ seqStr, c.isDigit = true) ∧
      splitChar '-' (OrderNumber.generateOrderNumber (some "production") vercelSet
          y m d "phenoms" now ensureSheetOk appendResult updateOk).data =
        ["CVL".data, "PROD".data, "PHENOMS".data, dateStr, seqStr] ∧
      OrderNumber.getShortOrderNumber (OrderNumber.generateOrderNumber
          (some "production") vercelSet y m d "phenoms" now ensureSheetOk
          appendResult updateOk) = String.mk seqStr := by
  have henv : OrderNumber.getEnvironment (some "production") vercelSet = "PROD" := by
    simp [OrderNumber.getEnvironment]
  set seq := OrderNumber.getNextSequenceNumber "PROD" now ensureSheetOk
    appendResult updateOk with hseqdef
  set dateBlock : List Char := padStart (decDigits y) 4 '0' ++
    padStart (decDigits m) 2 '0' ++ padStart (decDigits d) 2 '0' with hdateb
  set seqBlock : List Char := padStart (decDigits seq) 6 '0' with hseqb
  have hdate_dig : ∀ c ∈ dateBlock, c.isDigit = true := by
    intro c hc
    rw [hdateb] at hc
    rcases List.mem_append.mp hc with h | h
    · rcases List.mem_append.mp h with h | h
      · exact padStart_decDigits_isDigit y 4 c h
      · exact padStart_decDigits_isDigit m 2 c h
    · exact padStart_decDigits_isDigit d 2 c h
  have hseq_dig : ∀ c ∈ seqBlock, c.isDigit = true := by
    rw [hseqb]
    exact padStart_decDigits_isDigit seq 6
  have hdate_len : dateBlock.length = 8 := by
    rw [hdateb, List.length_append, List.length_append,
      padStart_length_of_le _ _ _
        (decDigits_length_le y 4 (by norm_num; omega) (by norm_num)),
      padStart_length_of_le _ _ _
        (decDigits_length_le m 2 (by norm_num; omega) (by norm_num)),
      padStart_length_of_le _ _ _
        (decDigits_length_le d 2 (by norm_num; omega) (by norm_num))]
  have hseq_len : seqBlock.length = 6 := by
    rw [hseqb]
    exact padStart_length_of_le _ _ _
      (decDigits_length_le seq 6 (by norm_num; omega) (by norm_num))
  have hgen : OrderNumber.generateOrderNumber (some "production") vercelSet y m d
      "phenoms" now ensureSheetOk appendResult updateOk =
      String.mk ("CVL".data ++ '-' :: ("PROD".data ++ '-' :: ("PHENOMS".data ++ '-' ::
        (dateBlock ++ '-' :: seqBlock)))) := by
    simp only [OrderNumber.generateOrderNumber, henv]
    rw [isoDateData_filter, ← hseqdef, ← hdateb, ← hseqb]
    have hstore : jsToUpper (if "phenoms" = "" then "DEFAULT" else "phenoms") =
        "PHENOMS" := by decide
    rw [hstore]
    simp [List.append_assoc]
  have hsplit : splitChar '-' (OrderNumber.generateOrderNumber (some "production")
      vercelSet y m d "phenoms" now ensureSheetOk appendResult updateOk).data =
      ["CVL".data, "PROD".data, "PHENOMS".data, dateBlock, seqBlock] := by
    have hs1 := splitChar_append_of_not_mem '-' "CVL".data
      ("PROD".data ++ '-' :: ("PHENOMS".data ++ '-' :: (dateBlock ++ '-' :: seqBlock)))
      (by decide)
    have hs2 := splitChar_append_of_not_mem '-' "PROD".data
      ("PHENOMS".data ++ '-' :: (dateBlock ++ '-' :: seqBlock)) (by decide)
    have hs3 := splitChar_append_of_not_mem '-' "PHENOMS".data
      (dateBlock ++ '-' :: seqBlock) (by decide)
    have hs4 := splitChar_append_of_not_mem '-' dateBlock seqBlock
      (dash_not_mem_of_isDigit _ hdate_dig)
    have hs5 := splitChar_of_not_mem '-' seqBlock (dash_not_mem_of_isDigit _ hseq_dig)
    rw [hgen, string_mk_data, hs1, hs2, hs3, hs4, hs5]
  have hseq_ne : seqBlock ≠ [] := by
    intro e
    rw [e] at hseq_len
    simp at hseq_len
  have hshort : OrderNumber.getShortOrderNumber (OrderNumber.generateOrderNumber
      (some "production") vercelSet y m d "phenoms" now ensureSheetOk appendResult
      updateOk) = String.mk seqBlock := by
    unfold OrderNumber.getShortOrderNumber
    rw [hsplit]
    simp only [List.getLast?_cons_cons, List.getLast?_singleton]
    rw [if_neg (by simpa [List.isEmpty_iff] using hseq_ne)]
  exact ⟨dateBlock, seqBlock, hgen, hdate_len, hdate_dig, hseq_len, hseq_dig,
    hsplit, hshort⟩

/-- Witness for C6 at a concrete production-like context: date
2025-01-27, append assigned row 5 (hence sequence 4). -/
theorem C6_order_number_format_witness :
    OrderNumber.getNextSequenceNumber "PROD" 0 true
      (some (some "OrderSequence!A5:C5")) true ≤ 999999 ∧
    ∃ dateStr seqStr : List Char,
      OrderNumber.generateOrderNumber (some "production") true 2025 1 27 "phenoms"
          0 true (some (some "OrderSequence!A5:C5")) true =
        String.mk ("CVL".data ++ '-' :: ("PROD".data ++ '-' :: ("PHENOMS".data ++ '-' ::
          (dateStr ++ '-' :: seqStr)))) ∧
      dateStr.length = 8 ∧ (∀ c ∈ dateStr, c.isDigit = true) ∧
      seqStr.length = 6 ∧ (∀ c ∈ seqStr, c.isDigit = true) ∧
      splitChar '-' (OrderNumber.generateOrderNumber (some "production") true
          2025 1 27 "phenoms" 0 true (some (some "OrderSequence!A5:C5")) true).data =
        ["CVL".data, "PROD".data, "PHENOMS".data, dateStr, seqStr] ∧
      OrderNumber.getShortOrderNumber (OrderNumber.generateOrderNumber
          (some "production") true 2025 1 27 "phenoms" 0 true
          (some (some "OrderSequence!A5:C5")) true) = String.mk seqStr :=
  ⟨by decide,
   C6_order_number_format true 2025 1 27 0 true (some (some "OrderSequence!A5:C5"))
     true (by decide) (by decide) (by decide) (by decide)⟩

/-- Counterexample to C2: with the ledger write succeeding and PDF
generation throwing, `processOrderAsync` re-throws and the customer
e-mail is NOT attempted — contradicting the claim that it would still
be attempted without an attachment. -/
theorem C2_counterexample :
    (Route.processOrderAsync
      ⟨some true, none, some (), some (), some "ops@example.com"⟩).sheetsSucceeded
        = true ∧
    (Route.processOrderAsync
      ⟨some true, none, some (), some (), some "ops@example.com"⟩).customerEmailAttempted
        = false ∧
    (Route.processOrderAsync
      ⟨some true, none, some (), some (), some "ops@example.com"⟩).thrown = true := by
  decide

/-- C2 (amended): the fulfillment steps share one error boundary: when
the ledger write has succeeded and document generation raises, the
ledger write is unaffected (already completed), but the exception is
re-thrown after logging, so neither the customer nor the admin
notification is attempted; the route's caller catches the re-thrown
error and still responds with success. -/
theorem C2_amended_single_boundary (fx : Route.FulfillmentEffects)
    (h1 : fx.sheetsResult = some true) (h2 : fx.pdfResult = none) :
    Route.processOrderAsync fx =
      ⟨true, true, true, false, false, false, false, false, true⟩ := by
  unfold Route.processOrderAsync Route.processOrderAsync.pdfStep
  simp [Route.FEATURE_FLAGS, h1, h2]

/-- Witness for the amended C2 at a concrete effect assignment. -/
theorem C2_amended_single_boundary_witness :
    Route.processOrderAsync ⟨some true, none, some (), some (), some "ops@example.com"⟩ =
      ⟨true, true, true, false, false, false, false, false, true⟩ :=
  C2_amended_single_boundary _ rfl rfl

theorem foldl_add_eq_sum {α : Type} (f : α → ℚ) :
    ∀ (l : List α) (a : ℚ), l.foldl (fun s o => s + f o) a = a + (l.map f).sum := by
  intro l
  induction l with
  | nil => intro a; simp
  | cons x xs ih =>
    intro a
    simp only [List.foldl_cons, List.map_cons, List.sum_cons, ih, add_assoc]

/-- Counterexample to C1: a catalog where product `tee` costs 15 with
a size-`XL` upcharge of 5, and a submitted `XL` item claiming no
upcharge.  The route's price verification (which receives products
without their size tables) passes, yet the recomputed total is 15 —
the claimed per-item total including the catalog size upcharge would
be 20. -/
theorem C1_counterexample :
    (Pricing.verifyPrices
      [⟨"tee", "Tee", "XL", 0, 15, 1, [], 0, [], 0, 15⟩]
      ([(⟨"tee", "Tee", 15, [⟨"XL", 5⟩]⟩ : Route.CatalogProduct)].map
        (fun p => ⟨p.id, p.price, p.name, none⟩))
      [] []).valid = true ∧
    Route.serverCalculatedTotal
      [⟨"tee", "Tee", "XL", 0, 15, 1, [], 0, [], 0, 15⟩]
      [⟨"tee", "Tee", 15, [⟨"XL", 5⟩]⟩] [] [] = 15 ∧
    Route.claimedTotalAmount
      [⟨"tee", "Tee", "XL", 0, 15, 1, [], 0, [], 0, 15⟩]
      [⟨"tee", "Tee", 15, [⟨"XL", 5⟩]⟩] [] [] = 20 := by
  refine ⟨?_, ?_, ?_⟩
  · norm_num [Pricing.verifyPrices, Pricing.itemDiscrepancies,
      Pricing.designOptionDiscrepancies, Pricing.customizationOptionDiscrepancies,
      Pricing.expectedDesignTotal, Pricing.expectedCustomTotal, List.find?]
  · norm_num [Route.serverCalculatedTotal, List.find?]
  · norm_num [Route.claimedTotalAmount, Pricing.catalogPriceOf, List.find?]

/-- C1 (amended): the route's recomputed `totalAmount` equals the sum
over all items of (catalog base price plus the catalog prices of the
item's design and customization options, unknown numbers contributing
0) multiplied by the item's quantity; the size upcharge does not
enter the recomputation, and the client-submitted `totalAmount` is
not an input of the recomputation at all. -/
theorem C1_amended_server_total (items : List Validation.ValidatedOrderItem)
    (products : List Route.CatalogProduct)
    (designOptions customizationOptions : List Pricing.CatalogOption) :
    Route.serverCalculatedTotal items products designOptions customizationOptions =
      Route.serverTotalSpec items products designOptions customizationOptions := by
  unfold Route.serverCalculatedTotal Route.serverTotalSpec
  have aux : ∀ (l : List Validation.ValidatedOrderItem) (a : ℚ),
      List.foldl (fun sum item =>
        match products.find? (fun p => p.id == item.productId) with
        | none => sum
        | some product =>
          let designTotal := item.designOptions.foldl (fun dSum opt =>
            dSum + (((designOptions.find? (fun d => d.number == opt.optionNumber)).map
              (fun d => d.price)).getD 0)) 0
          let customTotal := item.customizationOptions.foldl (fun cSum opt =>
            cSum + (((customizationOptions.find? (fun c => c.number == opt.optionNumber)).map
              (fun c => c.price)).getD 0)) 0
          let itemTotal := (product.price + designTotal + customTotal) * item.quantity
          sum + itemTotal) a l =
      a + (l.map (fun item =>
        match products.find? (fun p => p.id == item.productId) with
        | none => 0
        | some p =>
          (p.price +
            (item.designOptions.map
              (fun o => Pricing.catalogPriceOf designOptions o.optionNumber)).sum +
            (item.customizationOptions.map
              (fun o => Pricing.catalogPriceOf customizationOptions o.optionNumber)).sum) *
            item.quantity)).sum := by
    intro l
    induction l with
    | nil => intro a; simp
    | cons x xs ih =>
      intro a
      simp only [List.foldl_cons, List.map_cons, List.sum_cons]
      rcases hfind : products.find? (fun p => p.id == x.productId) with _ | p
      · simp only [hfind]
        rw [ih]
        ring
      · simp only [hfind]
        rw [ih]
        have hd := foldl_add_eq_sum
          (fun o => Pricing.catalogPriceOf designOptions o.optionNumber)
          x.designOptions 0
        have hc := foldl_add_eq_sum
          (fun o => Pricing.catalogPriceOf customizationOptions o.optionNumber)
          x.customizationOptions 0
        simp only [Pricing.catalogPriceOf] at hd hc
        rw [hd, hc]
        simp only [Pricing.catalogPriceOf]
        ring
  rw [aux, zero_add]

/-- Witness for the amended C1 at the concrete catalog of the
counterexample input. -/
theorem C1_amended_server_total_witness :
    Route.serverCalculatedTotal
      [⟨"tee", "Tee", "XL", 0, 15, 1, [], 0, [], 0, 15⟩]
      [⟨"tee", "Tee", 15, [⟨"XL", 5⟩]⟩] [] [] =
    Route.serverTotalSpec
      [⟨"tee", "Tee", "XL", 0, 15, 1, [], 0, [], 0, 15⟩]
      [⟨"tee", "Tee", 15, [⟨"XL", 5⟩]⟩] [] [] :=
  C1_amended_server_total _ _ _ _

theorem flatMap_eq_nil_iff {α β : Type} (f : α → List β) (l : List α) :
    l.flatMap f = [] ↔ ∀ a ∈ l, f a = [] := by
  induction l with
  | nil => simp
  | cons x xs ih => simp [List.flatMap_cons, ih]

namespace Pricing

theorem designOptionDiscrepancies_eq_nil_iff
    (opts : List Validation.ValidatedDesignOption) (d : List CatalogOption) :
    designOptionDiscrepancies opts d = [] ↔
      ∀ opt ∈ opts, ∀ dOpt,
        d.find? (fun x => x.number == opt.optionNumber) = some dOpt →
          |opt.price - dOpt.price| ≤ 0.01 := by
  unfold designOptionDiscrepancies
  rw [flatMap_eq_nil_iff]
  refine forall₂_congr fun opt _ => ?_
  rcases hf : d.find? (fun x => x.number == opt.optionNumber) with _ | dOpt
  · simp [hf]
  · simp only [hf, Option.some.injEq]
    constructor
    · intro h x hx
      subst hx
      by_contra habs
      rw [if_pos (not_le.mp habs)] at h
      simp at h
    · intro h
      rw [if_neg (not_lt.mpr (h dOpt rfl))]

theorem customizationOptionDiscrepancies_eq_nil_iff
    (opts : List Validation.ValidatedCustomizationOption) (c : List CatalogOption) :
    customizationOptionDiscrepancies opts c = [] ↔
      ∀ opt ∈ opts, ∀ cOpt,
        c.find? (fun x => x.number == opt.optionNumber) = some cOpt →
          |opt.price - cOpt.price| ≤ 0.01 := by
  unfold customizationOptionDiscrepancies
  rw [flatMap_eq_nil_iff]
  refine forall₂_congr fun opt _ => ?_
  rcases hf : c.find? (fun x => x.number == opt.optionNumber) with _ | cOpt
  · simp [hf]
  · simp only [hf, Option.some.injEq]
    constructor
    · intro h x hx
      subst hx
      by_contra habs
      rw [if_pos (not_le.mp habs)] at h
      simp at h
    · intro h
      rw [if_neg (not_lt.mpr (h cOpt rfl))]

theorem expectedDesignTotal_eq_sum
    (opts : List Validation.ValidatedDesignOption) (d : List CatalogOption) :
    expectedDesignTotal opts d =
      (opts.map (fun o => catalogPriceOf d o.optionNumber)).sum := by
  unfold expectedDesignTotal
  have aux : ∀ (l : List Validation.ValidatedDesignOption) (a : ℚ),
      l.foldl (fun acc opt =>
        match d.find? (fun x => x.number == opt.optionNumber) with
        | some designOpt => acc + designOpt.price
        | none => acc) a =
      a + (l.map (fun o => catalogPriceOf d o.optionNumber)).sum := by
    intro l
    induction l with
    | nil => intro a; simp
    | cons x xs ih =>
      intro a
      simp only [List.foldl_cons, List.map_cons, List.sum_cons]
      rcases hf : d.find? (fun y => y.number == x.optionNumber) with _ | dOpt
      · simp only [hf]
        rw [ih]
        simp [catalogPriceOf, hf]
      · simp only [hf]
        rw [ih]
        simp [catalogPriceOf, hf]
        ring
  rw [aux, zero_add]

theorem expectedCustomTotal_eq_sum
    (opts : List Validation.ValidatedCustomizationOption) (c : List CatalogOption) :
    expectedCustomTotal opts c =
      (opts.map (fun o => catalogPriceOf c o.optionNumber)).sum := by
  unfold expectedCustomTotal
  have aux : ∀ (l : List Validation.ValidatedCustomizationOption) (a : ℚ),
      l.foldl (fun acc opt =>
        match c.find? (fun x => x.number == opt.optionNumber) with
        | some customOpt => acc + customOpt.price
        | none => acc) a =
      a + (l.map (fun o => catalogPriceOf c o.optionNumber)).sum := by
    intro l
    induction l with
    | nil => intro a; simp
    | cons x xs ih =>
      intro a
      simp only [List.foldl_cons, List.map_cons, List.sum_cons]
      rcases hf : c.find? (fun y => y.number == x.optionNumber) with _ | cOpt
      · simp only [hf]
        rw [ih]
        simp [catalogPriceOf, hf]
      · simp only [hf]
        rw [ih]
        simp [catalogPriceOf, hf]
        ring
  rw [aux, zero_add]

theorem itemDiscrepancies_eq_nil_iff (item : Validation.ValidatedOrderItem)
    (products : List VerifyProduct)
    (designOptions customizationOptions : List CatalogOption) :
    itemDiscrepancies item products designOptions customizationOptions = [] ↔
      itemChecksOut item products designOptions customizationOptions := by
  unfold itemDiscrepancies itemChecksOut
  rcases hf : products.find? (fun p => p.id == item.productId) with _ | product
  · simp [hf]
  · simp [hf, Option.some.injEq, List.append_eq_nil,
      designOptionDiscrepancies_eq_nil_iff, customizationOptionDiscrepancies_eq_nil_iff,
      expectedDesignTotal_eq_sum, expectedCustomTotal_eq_sum,
      ite_eq_right_iff, not_lt, exists_eq_left']

end Pricing

/-- Counterexample to C4: an order whose single item carries design
option number 7, unknown to the (empty) design-option catalog, with a
submitted price of 0: `verifyPrices` records NO discrepancy for the
unknown option and accepts the order. -/
theorem C4_counterexample :
    (Pricing.verifyPrices
      [⟨"tee", "Tee", "M", 0, 15, 1, [⟨7, "Logo", 0⟩], 0, [], 0, 15⟩]
      [⟨"tee", 15, "Tee", none⟩] [] []).valid = true ∧
    (Pricing.verifyPrices
      [⟨"tee", "Tee", "M", 0, 15, 1, [⟨7, "Logo", 0⟩], 0, [], 0, 15⟩]
      [⟨"tee", 15, "Tee", none⟩] [] []).discrepancies = [] := by
  constructor <;>
    norm_num [Pricing.verifyPrices, Pricing.itemDiscrepancies,
      Pricing.designOptionDiscrepancies, Pricing.customizationOptionDiscrepancies,
      Pricing.expectedDesignTotal, Pricing.expectedCustomTotal, List.find?]

/-- C4 (amended): `verifyPrices` accepts exactly when every item's
product exists and all checked prices agree within the epsilon, where
submitted option numbers NOT found in the catalog contribute 0 to the
expected totals and are silently skipped — no discrepancy flags them,
so an order containing an unknown option number is rejected only if
the skipped option makes a submitted price inconsistent. -/
theorem C4_amended_unknown_options
    (items : List Validation.ValidatedOrderItem)
    (products : List Pricing.VerifyProduct)
    (designOptions customizationOptions : List Pricing.CatalogOption) :
    (Pricing.verifyPrices items products designOptions customizationOptions).valid
        = true ↔
      ∀ item ∈ items,
        Pricing.itemChecksOut item products designOptions customizationOptions := by
  unfold Pricing.verifyPrices
  simp only [beq_iff_eq, List.length_eq_zero]
  rw [flatMap_eq_nil_iff]
  exact forall₂_congr fun item _ =>
    Pricing.itemDiscrepancies_eq_nil_iff item products designOptions customizationOptions

/-- Witness for the amended C4: the empty order passes verification. -/
theorem C4_amended_unknown_options_witness :
    (Pricing.verifyPrices [] [] [] []).valid = true :=
  (C4_amended_unknown_options [] [] [] []).mpr (by simp)

theorem mem_enumFrom_of_get? {α : Type} :
    ∀ (l : List α) (n i : Nat) (a : α),
      l.get? i = some a → (n + i, a) ∈ l.enumFrom n := by
  intro l
  induction l with
  | nil => intro n i a h; simp at h
  | cons x xs ih =>
    intro n i a h
    cases i with
    | zero =>
      simp only [List.get?_cons_zero, Option.some.injEq] at h
      subst h
      simp [List.enumFrom]
    | succ i =>
      simp only [List.get?_cons_succ] at h
      have hrec := ih (n + 1) i a h
      have he : n + (i + 1) = n + 1 + i := by omega
      simp only [List.enumFrom, List.mem_cons]
      rw [he]
      exact Or.inr hrec

theorem mem_enum_of_get? {α : Type} (l : List α) (i : Nat) (a : α)
    (h : l.get? i = some a) : (i, a) ∈ l.enum := by
  have := mem_enumFrom_of_get? l 0 i a h
  simpa [List.enum] using this

/-- C7: validation reports ALL violations: for a payload whose contact
info lacks the e-mail and whose `i`-th item has a `j`-th customization
option with a custom name longer than 30 characters, the returned
error list contains entries for both violations (the embedding of the
validator is a pure function of the payload). -/
theorem C7_validation_completeness
    (raw : Validation.RawOrderSubmission) (c : Validation.RawContactInfo)
    (items : List Validation.RawOrderItem) (it : Validation.RawOrderItem)
    (opts : List Validation.RawCustomizationOption)
    (o : Validation.RawCustomizationOption) (nm : String) (i j : Nat)
    (hc : raw.contactInfo = some c) (hce : c.email = none)
    (hi : raw.items = some items) (hit : items.get? i = some it)
    (hopts : it.customizationOptions = some opts) (ho : opts.get? j = some o)
    (hnm : o.customName = some nm) (hlen : nm.length > 30) :
    (Validation.validateOrderSubmission raw).success = false ∧
    ∃ errs, (Validation.validateOrderSubmission raw).errors = some errs ∧
      "contactInfo.email: Required" ∈ errs ∧
      ("items." ++ Nat.repr i ++ ".customizationOptions." ++ Nat.repr j ++
        ".customName" ++ ": " ++ "Custom name is too long") ∈ errs := by
  have hm1 : (⟨"contactInfo" ++ ".email", "Required"⟩ : Validation.ZodIssue) ∈
      Validation.orderSubmissionIssues raw := by
    have hA : (⟨"contactInfo" ++ ".email", "Required"⟩ : Validation.ZodIssue) ∈
        Validation.contactInfoIssues "contactInfo" c := by
      have hA1 : (⟨"contactInfo" ++ ".email", "Required"⟩ : Validation.ZodIssue) ∈
          Validation.requiredStringIssues ("contactInfo" ++ ".email") c.email
            Validation.emailChecks := by
        rw [hce]
        unfold Validation.requiredStringIssues
        exact List.mem_singleton_self _
      unfold Validation.contactInfoIssues
      simp only [List.mem_append]
      tauto
    unfold Validation.orderSubmissionIssues
    rw [hc]
    simp only [List.mem_append]
    tauto
  have hm2 : (⟨"items." ++ Nat.repr i ++ ".customizationOptions." ++ Nat.repr j ++
      ".customName", "Custom name is too long"⟩ : Validation.ZodIssue) ∈
      Validation.orderSubmissionIssues raw := by
    have hinner : (⟨"items." ++ Nat.repr i ++ ".customizationOptions." ++ Nat.repr j ++
        ".customName", "Custom name is too long"⟩ : Validation.ZodIssue) ∈
        Validation.customizationOptionIssues
          ("items." ++ Nat.repr i ++ ".customizationOptions." ++ Nat.repr j) o := by
      have hname : (⟨"items." ++ Nat.repr i ++ ".customizationOptions." ++ Nat.repr j ++
          ".customName", "Custom name is too long"⟩ : Validation.ZodIssue) ∈
          (Validation.stringMaxChecks 30 "Custom name is too long" nm).map
            (fun m => (⟨"items." ++ Nat.repr i ++ ".customizationOptions." ++
              Nat.repr j ++ ".customName", m⟩ : Validation.ZodIssue)) := by
        unfold Validation.stringMaxChecks
        rw [if_pos hlen]
        exact List.mem_singleton_self _
      unfold Validation.customizationOptionIssues
      rw [hnm]
      simp only [List.mem_append]
      tauto
    have hflat : (⟨"items." ++ Nat.repr i ++ ".customizationOptions." ++ Nat.repr j ++
        ".customName", "Custom name is too long"⟩ : Validation.ZodIssue) ∈
        opts.enum.flatMap (fun p =>
          Validation.customizationOptionIssues
            ("items." ++ Nat.repr i ++ ".customizationOptions." ++ Nat.repr p.1) p.2) :=
      List.mem_flatMap.mpr ⟨(j, o), mem_enum_of_get? opts j o ho, hinner⟩
    have hitem : (⟨"items." ++ Nat.repr i ++ ".customizationOptions." ++ Nat.repr j ++
        ".customName", "Custom name is too long"⟩ : Validation.ZodIssue) ∈
        Validation.orderItemIssues ("items." ++ Nat.repr i) it := by
      unfold Validation.orderItemIssues
      rw [hopts]
      simp only [List.mem_append]
      tauto
    have hflat2 : (⟨"items." ++ Nat.repr i ++ ".customizationOptions." ++ Nat.repr j ++
        ".customName", "Custom name is too long"⟩ : Validation.ZodIssue) ∈
        items.enum.flatMap (fun p =>
          Validation.orderItemIssues ("items." ++ Nat.repr p.1) p.2) :=
      List.mem_flatMap.mpr ⟨(i, it), mem_enum_of_get? items i it hit, hitem⟩
    unfold Validation.orderSubmissionIssues
    rw [hi]
    simp only [List.mem_append]
    tauto
  rcases heq : Validation.orderSubmissionIssues raw with _ | ⟨x, xs⟩
  · rw [heq] at hm1
    cases hm1
  · rw [heq] at hm1 hm2
    unfold Validation.validateOrderSubmission
    rw [heq]
    refine ⟨rfl, (x :: xs).map (fun i => i.path ++ ": " ++ i.message), rfl, ?_, ?_⟩
    · exact List.mem_map.mpr ⟨_, hm1, rfl⟩
    · exact List.mem_map.mpr ⟨_, hm2, rfl⟩

/-- Witness for C7: a concrete payload missing the e-mail and carrying
a 31-character custom name produces both error entries. -/
theorem C7_validation_completeness_witness :
    (Validation.validateOrderSubmission
      ⟨some ⟨none, some "Ann", some "Lee", some "1234567890"⟩,
       some [⟨some "tee", some "Tee", some "M", some 0, some 15, some 1,
         some [], some 0,
         some [⟨some 1, some "Name", some 0,
           some "AAAAAAAAAAAAAAAAAAAAAAAAAAAAAAA", none⟩], some 0, some 15⟩],
       some 15, none⟩).success = false ∧
    ∃ errs,
      (Validation.validateOrderSubmission
        ⟨some ⟨none, some "Ann", some "Lee", some "1234567890"⟩,
         some [⟨some "tee", some "Tee", some "M", some 0, some 15, some 1,
           some [], some 0,
           some [⟨some 1, some "Name", some 0,
             some "AAAAAAAAAAAAAAAAAAAAAAAAAAAAAAA", none⟩], some 0, some 15⟩],
         some 15, none⟩).errors = some errs ∧
      "contactInfo.email: Required" ∈ errs ∧
      ("items." ++ Nat.repr 0 ++ ".customizationOptions." ++ Nat.repr 0 ++
        ".customName" ++ ": " ++ "Custom name is too long") ∈ errs :=
  C7_validation_completeness _ _ _ _ _ _ "AAAAAAAAAAAAAAAAAAAAAAAAAAAAAAA" 0 0
    rfl rfl rfl rfl rfl rfl rfl (by decide)

theorem jsTrim_subset (s : String) : ∀ c ∈ (jsTrim s).data, c ∈ s.data := by
  intro c hc
  unfold jsTrim at hc
  rw [string_mk_data] at hc
  rw [List.mem_reverse] at hc
  have h1 := (List.dropWhile_sublist (l := (s.data.dropWhile jsIsWhitespace).reverse)
    jsIsWhitespace).subset hc
  rw [List.mem_reverse] at h1
  exact (List.dropWhile_sublist jsIsWhitespace).subset h1

namespace Validation

theorem sanitizeString_noAngle (s : String) : noAngle (sanitizeString s) := by
  constructor <;> intro hmem
  · have h2 := jsTrim_subset _ _ hmem
    rw [string_mk_data] at h2
    have h3 := List.of_mem_filter h2
    simp at h3
  · have h2 := jsTrim_subset _ _ hmem
    rw [string_mk_data] at h2
    have h3 := List.of_mem_filter h2
    simp at h3

theorem validate_data_eq (raw : RawOrderSubmission) (v : ValidatedOrderSubmission)
    (h : (validateOrderSubmission raw).data = some v) :
    orderSubmissionIssues raw = [] ∧ v = transformOrderSubmission raw := by
  unfold validateOrderSubmission at h
  rcases heq : orderSubmissionIssues raw with _ | ⟨x, xs⟩
  · rw [heq] at h
    simp only [Option.some.injEq] at h
    exact ⟨rfl, h.symm⟩
  · rw [heq] at h
    simp at h

theorem contact_email_present (raw : RawOrderSubmission)
    (h : orderSubmissionIssues raw = []) :
    ∃ c e, raw.contactInfo = some c ∧ c.email = some e := by
  unfold orderSubmissionIssues at h
  rcases hc : raw.contactInfo with _ | c
  · rw [hc] at h
    simp at h
  · rw [hc] at h
    rcases he : c.email with _ | e
    · exfalso
      simp only [List.append_eq_nil] at h
      have h1 := h.1.1.1
      unfold contactInfoIssues at h1
      simp only [List.append_eq_nil] at h1
      have h2 := h1.1.1.1
      rw [he] at h2
      unfold requiredStringIssues at h2
      cases h2
    · exact ⟨c, e, rfl, he⟩

end Validation

/-- C9: every payload accepted by validation has all sanitized
free-text fields (names, product id/name/size, option titles, custom
names, store slug) free of angle brackets, and the e-mail field of
the validated result is the raw e-mail lowercased and trimmed. -/
theorem C9_sanitized_output (raw : Validation.RawOrderSubmission)
    (v : Validation.ValidatedOrderSubmission)
    (h : (Validation.validateOrderSubmission raw).data = some v) :
    Validation.noAngle v.contactInfo.parentFirstName ∧
    Validation.noAngle v.contactInfo.parentLastName ∧
    (∀ it ∈ v.items, Validation.noAngle it.productId ∧
      Validation.noAngle it.productName ∧ Validation.noAngle it.size ∧
      (∀ o ∈ it.designOptions, Validation.noAngle o.title) ∧
      (∀ o ∈ it.customizationOptions, Validation.noAngle o.title ∧
        ∀ nm, o.customName = some nm → Validation.noAngle nm)) ∧
    (∀ s, v.storeSlug = some s → Validation.noAngle s) ∧
    (∃ c e, raw.contactInfo = some c ∧ c.email = some e ∧
      v.contactInfo.email = jsTrim (jsToLower e)) := by
  obtain ⟨hiss, hv⟩ := Validation.validate_data_eq raw v h
  obtain ⟨c, e, hc, he⟩ := Validation.contact_email_present raw hiss
  subst hv
  refine ⟨?_, ?_, ?_, ?_, c, e, hc, he, ?_⟩
  · exact Validation.sanitizeString_noAngle _
  · exact Validation.sanitizeString_noAngle _
  · intro it hit
    simp only [Validation.transformOrderSubmission, List.mem_map] at hit
    obtain ⟨ri, _, rfl⟩ := hit
    refine ⟨Validation.sanitizeString_noAngle _, Validation.sanitizeString_noAngle _,
      Validation.sanitizeString_noAngle _, ?_, ?_⟩
    · intro o ho
      simp only [Validation.transformOrderItem, List.mem_map] at ho
      obtain ⟨ro, _, rfl⟩ := ho
      exact Validation.sanitizeString_noAngle _
    · intro o ho
      simp only [Validation.transformOrderItem, List.mem_map] at ho
      obtain ⟨ro, _, rfl⟩ := ho
      refine ⟨Validation.sanitizeString_noAngle _, ?_⟩
      intro nm hnm
      simp only [Validation.transformCustomizationOption, Option.map_eq_some'] at hnm
      obtain ⟨y, _, rfl⟩ := hnm
      exact Validation.sanitizeString_noAngle _
  · intro s hs
    simp only [Validation.transformOrderSubmission, Option.map_eq_some'] at hs
    obtain ⟨y, _, rfl⟩ := hs
    exact Validation.sanitizeString_noAngle _
  · simp [Validation.transformOrderSubmission, Validation.transformContactInfo, hc, he]

/-- Witness for C9 at a concrete accepted payload: an e-mail with
mixed case and trailing space is lowercased and trimmed, and the
sanitized fields carry no angle brackets. -/
theorem C9_sanitized_output_witness :
    Validation.noAngle
      (⟨⟨"ann@example.com", "Ann", "Lee", "1234567890"⟩,
        [⟨"tee", "Tee", "M", 0, 15, 1, [], 0, [], 0, 15⟩], 15, none⟩ :
        Validation.ValidatedOrderSubmission).contactInfo.parentFirstName ∧
    Validation.noAngle
      (⟨⟨"ann@example.com", "Ann", "Lee", "1234567890"⟩,
        [⟨"tee", "Tee", "M", 0, 15, 1, [], 0, [], 0, 15⟩], 15, none⟩ :
        Validation.ValidatedOrderSubmission).contactInfo.parentLastName ∧
    (∀ it ∈ (⟨⟨"ann@example.com", "Ann", "Lee", "1234567890"⟩,
        [⟨"tee", "Tee", "M", 0, 15, 1, [], 0, [], 0, 15⟩], 15, none⟩ :
        Validation.ValidatedOrderSubmission).items,
      Validation.noAngle it.productId ∧ Validation.noAngle it.productName ∧
      Validation.noAngle it.size ∧
      (∀ o ∈ it.designOptions, Validation.noAngle o.title) ∧
      (∀ o ∈ it.customizationOptions, Validation.noAngle o.title ∧
        ∀ nm, o.customName = some nm → Validation.noAngle nm)) ∧
    (∀ s, (⟨⟨"ann@example.com", "Ann", "Lee", "1234567890"⟩,
        [⟨"tee", "Tee", "M", 0, 15, 1, [], 0, [], 0, 15⟩], 15, none⟩ :
        Validation.ValidatedOrderSubmission).storeSlug = some s →
      Validation.noAngle s) ∧
    (∃ c e,
      (⟨some ⟨some " Ann@Example.COM", some "Ann", some "Lee", some "1234567890"⟩,
        some [⟨some "tee", some "Tee", some "M", some 0, some 15, some 1,
          some [], some 0, some [], some 0, some 15⟩],
        some 15, none⟩ : Validation.RawOrderSubmission).contactInfo = some c ∧
      c.email = some e ∧
      (⟨⟨"ann@example.com", "Ann", "Lee", "1234567890"⟩,
        [⟨"tee", "Tee", "M", 0, 15, 1, [], 0, [], 0, 15⟩], 15, none⟩ :
        Validation.ValidatedOrderSubmission).contactInfo.email =
          jsTrim (jsToLower e)) :=
  C9_sanitized_output
    ⟨some ⟨some " Ann@Example.COM", some "Ann", some "Lee", some "1234567890"⟩,
      some [⟨some "tee", some "Tee", some "M", some 0, some 15, some 1,
        some [], some 0, some [], some 0, some 15⟩],
      some 15, none⟩
    ⟨⟨"ann@example.com", "Ann", "Lee", "1234567890"⟩,
      [⟨"tee", "Tee", "M", 0, 15, 1, [], 0, [], 0, 15⟩], 15, none⟩
    (by decide)

/-- Counterexample to C8: a request admitted by the throttle whose
body parse throws reaches the outer catch; the 500 response carries
NO headers at all — in particular none of the rate-limit headers. -/
theorem C8_counterexample :
    (Route.POST ⟨fun _ => none, 0⟩ 0
      ⟨"9.9.9.9", none, none, none, ⟨none, none, none, none, none⟩,
        none, false, 0, 0, 0, 0, false, none, false⟩).1.status = 500 ∧
    (Route.POST ⟨fun _ => none, 0⟩ 0
      ⟨"9.9.9.9", none, none, none, ⟨none, none, none, none, none⟩,
        none, false, 0, 0, 0, 0, false, none, false⟩).1.headers = [] := by
  decide

/-- C8 (amended): the 200, 400 and 429 responses of the submission
route carry the rate-limit headers; the 429 response additionally
carries the `Retry-After` hint computed from `resetIn`; the
outer-catch 500 response carries no headers. -/
theorem C8_amended_headers (st : RateLimit.RateLimitState) (now : Int)
    (fx : Route.PostEffects) :
    ((Route.POST st now fx).1.status = 200 ∨ (Route.POST st now fx).1.status = 400 →
      (Route.POST st now fx).1.headers =
        RateLimit.getRateLimitHeaders
          (RateLimit.checkRateLimit fx.clientIP RateLimit.ORDER_RATE_LIMIT now st).1
          RateLimit.ORDER_RATE_LIMIT) ∧
    ((Route.POST st now fx).1.status = 429 →
      (Route.POST st now fx).1.headers =
        RateLimit.getRateLimitHeaders
          (RateLimit.checkRateLimit fx.clientIP RateLimit.ORDER_RATE_LIMIT now st).1
          RateLimit.ORDER_RATE_LIMIT ++
        [("Retry-After", Int.repr (RateLimit.jsCeilDiv1000
          (RateLimit.checkRateLimit fx.clientIP RateLimit.ORDER_RATE_LIMIT now st).1.resetIn))] ∧
      (Route.POST st now fx).1.retryAfter = some (RateLimit.jsCeilDiv1000
        (RateLimit.checkRateLimit fx.clientIP RateLimit.ORDER_RATE_LIMIT now st).1.resetIn)) ∧
    ((Route.POST st now fx).1.status = 500 → (Route.POST st now fx).1.headers = []) := by
  simp only [Route.POST]
  split
  · exact ⟨fun h => by simp at h, fun _ => ⟨rfl, rfl⟩, fun h => by simp at h⟩
  · split
    · exact ⟨fun h => by rcases h with h | h <;> simp at h,
        fun h => by simp at h, fun _ => rfl⟩
    · split
      · exact ⟨fun _ => rfl, fun h => by simp at h, fun h => by simp at h⟩
      · split
        · exact ⟨fun h => by rcases h with h | h <;> simp at h,
            fun h => by simp at h, fun _ => rfl⟩
        · split
          · exact ⟨fun _ => rfl, fun h => by simp at h, fun h => by simp at h⟩
          · split
            · exact ⟨fun h => by rcases h with h | h <;> simp at h,
                fun h => by simp at h, fun _ => rfl⟩
            · exact ⟨fun _ => rfl, fun h => by simp at h, fun h => by simp at h⟩

/-- Witness for the amended C8 at a concrete denied request: the key
already has three requests in the current window. -/
theorem C8_amended_headers_witness :
    (Route.POST ⟨fun _ => some ⟨3, 0⟩, 0⟩ 0
      ⟨"9.9.9.9", none, none, none, ⟨none, none, none, none, none⟩,
        none, false, 0, 0, 0, 0, false, none, false⟩).1.headers =
      RateLimit.getRateLimitHeaders
        (RateLimit.checkRateLimit "9.9.9.9" RateLimit.ORDER_RATE_LIMIT 0
          ⟨fun _ => some ⟨3, 0⟩, 0⟩).1 RateLimit.ORDER_RATE_LIMIT ++
      [("Retry-After", Int.repr (RateLimit.jsCeilDiv1000
        (RateLimit.checkRateLimit "9.9.9.9" RateLimit.ORDER_RATE_LIMIT 0
          ⟨fun _ => some ⟨3, 0⟩, 0⟩).1.resetIn))] ∧
    (Route.POST ⟨fun _ => some ⟨3, 0⟩, 0⟩ 0
      ⟨"9.9.9.9", none, none, none, ⟨none, none, none, none, none⟩,
        none, false, 0, 0, 0, 0, false, none, false⟩).1.retryAfter =
      some (RateLimit.jsCeilDiv1000
        (RateLimit.checkRateLimit "9.9.9.9" RateLimit.ORDER_RATE_LIMIT 0
          ⟨fun _ => some ⟨3, 0⟩, 0⟩).1.resetIn) :=
  (C8_amended_headers ⟨fun _ => some ⟨3, 0⟩, 0⟩ 0
    ⟨"9.9.9.9", none, none, none, ⟨none, none, none, none, none⟩,
      none, false, 0, 0, 0, 0, false, none, false⟩).2.1 (by decide)

end CVL
